import Mathlib

/-!
Shallow embedding of the fwknopd SPA ingestion & authorization pipeline
(src/server/incoming_spa.c) and of the per-datagram step of the UDP
receiver (src/server/udp_server.c).

External collaborators (libfko, access.c ACLs, replay_cache.c, libc) are
modelled as oracle functions carried in an environment `FkoEnv`, or as
predicate-valued fields of the access stanza.  Externally visible actions
(decryption attempts, replay-cache insertions, command execution, firewall
requests) are recorded in an event trace.
-/

namespace Fwknop

/-- Modelled from the spec: result and error codes from fko.h and
fwknopd_errors.h, which are not part of src/.  Only their distinctness and
the identity of the success codes matter; the numeric values are arbitrary. -/
def FKO_SUCCESS : Int := 0

def FKO_ERROR_MEMORY_ALLOCATION : Int := 101

def SPA_MSG_SUCCESS : Int := 0

def SPA_MSG_BAD_DATA : Int := 2

def SPA_MSG_NOT_SPA_DATA : Int := 3

def SPA_MSG_FKO_CTX_ERROR : Int := 4

def SPA_MSG_DIGEST_ERROR : Int := 5

def SPA_MSG_ERROR : Int := 6

def SPA_MSG_REPLAY : Int := 7

def SPA_MSG_COMMAND_ERROR : Int := 8

def SPA_MSG_DIGEST_CACHE_ERROR : Int := 9

/-- Modelled from the spec: encryption-type codes returned by
fko_encryption_type (fko.h is not part of src/). -/
def FKO_ENCRYPTION_RIJNDAEL : Int := 1

def FKO_ENCRYPTION_GPG : Int := 2

def FKO_DEFAULT_DIGEST : Int := 3

/-- Modelled from the spec: the SPA message-type enumeration of the fko
library (fko.h is not part of src/); only distinctness matters. -/
def FKO_COMMAND_MSG : Int := 0

def FKO_ACCESS_MSG : Int := 1

def FKO_NAT_ACCESS_MSG : Int := 2

def FKO_CLIENT_TIMEOUT_ACCESS_MSG : Int := 3

def FKO_CLIENT_TIMEOUT_NAT_ACCESS_MSG : Int := 4

def FKO_LOCAL_NAT_ACCESS_MSG : Int := 5

def FKO_CLIENT_TIMEOUT_LOCAL_NAT_ACCESS_MSG : Int := 6

def FKO_SERVICE_ACCESS_MSG : Int := 7

def FKO_CLIENT_TIMEOUT_SERVICE_ACCESS_MSG : Int := 8

/-- Verdict of one stanza attempt, as in incoming_spa.c line 51. -/
def KEEP_SEARCHING : Nat := 1

/-- Verdict that terminates the stanza search, incoming_spa.c line 52. -/
def STOP_SEARCHING : Nat := 0

/-- The NUL byte, terminator of C strings. -/
def nulC : Char := Char.ofNat 0

/-- The contents of a C string stored at the head of a byte buffer:
everything up to the first NUL. -/
def cstr (l : List Char) : List Char := l.takeWhile (fun c => c != nulC)

/-- strncasecmp(l, s, n) == 0 on a buffer against a literal: the first n
bytes agree case-insensitively, comparison stopping at a NUL in the buffer. -/
def strncaseEqL (l : List Char) (s : List Char) (n : Nat) : Bool :=
  ((cstr l).take n).map Char.toLower == (s.take n).map Char.toLower

/-- strncasecmp(a, b, n) == 0 on two NUL-free strings. -/
def strncaseEqS (a b : String) (n : Nat) : Bool :=
  (a.data.take n).map Char.toLower == (b.data.take n).map Char.toLower

/-- The repeated configuration-test idiom strncasecmp(conf, lit, 1) == 0. -/
def confIs (conf lit : String) : Bool := strncaseEqS conf lit 1

/-- constant_runtime_cmp(l, p, n) == 0: plain byte comparison of the first
n bytes (does not stop at NUL; the callers have checked the length). -/
def bytesEqL (l p : List Char) (n : Nat) : Bool := l.take n == p.take n

/-- strlcpy(dst, src, size) on NUL-free string data: what ends up in dst. -/
def strlcpyS (src : String) (size : Nat) : String :=
  String.mk (src.data.take (size - 1))

/-- strlcat(dst, src, size) on NUL-free string data: what ends up in dst. -/
def strlcatS (dst src : String) (size : Nat) : String :=
  String.mk (dst.data ++ src.data.take (size - 1 - dst.data.length))

/-- C isspace over the ASCII range. -/
def isspaceC (c : Char) : Bool :=
  c == ' ' || c == '\t' || c == '\n' || c == Char.ofNat 11 ||
  c == Char.ofNat 12 || c == '\r'

/-- The character substitutions the HTTP branch of preprocess_spa_data
applies to the payload. -/
def httpConv (c : Char) : Char :=
  if c == '-' then '+' else if c == '_' then '/' else c

/-- Modelled from the spec: compile-time firewall backend selection
(FIREWALL_FIREWALLD / FIREWALL_IPTABLES / neither) in check_nat_access_types. -/
inductive FwBackend where
  | firewd : FwBackend
  | ipt : FwBackend
  | noFirewall : FwBackend
deriving DecidableEq

/-- Modelled from the spec: the numeric constants of fwknopd_common.h and
fko.h, which are not part of src/.  They are carried as parameters; the
concrete scenarios below instantiate them with the upstream values. -/
structure Consts where
  minSpaDataSize : Nat
  maxSpaPacketLen : Nat
  minGnupgMsgSize : Nat
  b64RijndaelSalt : List Char
  b64RijndaelSaltLen : Nat
  b64GpgMark : List Char
  b64GpgMarkLen : Nat
  b64SdpIdStrLen : Nat
  maxSdpIdStrLen : Nat
  minIpv4StrLen : Nat
  maxIpv4StrLen : Nat
  maxDecryptedSpaLen : Nat
  maxSpaCmdLen : Nat
  defFwAccessTimeout : Int
  fwBackend : FwBackend

/-- The fields of spa_data_t that get_spa_data_fields pulls out of a
successfully decrypted FKO context. -/
structure SpaFields where
  disable_sdp_mode : Nat
  sdp_id : Nat
  username : String
  version : String
  timestamp : Int
  message_type : Int
  spa_message : String
  nat_access : String
  server_auth : String
  client_timeout : Int
deriving DecidableEq

/-- Oracle outcome of one FKO context creation/decryption: the result codes
of the library calls made on that context afterwards, and the decoded
payload fields. -/
structure CtxOut where
  newRes : Int
  msgTypeRes : Int
  msgType : Int
  fieldsRes : Int
  fields : SpaFields
  sigIdRes : Int
  sigId : String
  sigFprRes : Int
  sigFpr : String
  sigFprMatch : String → Int × Bool
  sigIdMatch : String → Int × Bool

/-- Placeholder context; process_spa_data only reads the context after
check_mode_ctx has ensured a decryption attempt produced one. -/
def defaultCtxOut : CtxOut :=
  { newRes := FKO_SUCCESS, msgTypeRes := FKO_SUCCESS, msgType := 0,
    fieldsRes := FKO_SUCCESS,
    fields := { disable_sdp_mode := 0, sdp_id := 0, username := "",
                version := "", timestamp := 0, message_type := 0,
                spa_message := "", nat_access := "", server_auth := "",
                client_timeout := 0 },
    sigIdRes := FKO_SUCCESS, sigId := "", sigFprRes := FKO_SUCCESS,
    sigFpr := "", sigFprMatch := fun _ => (FKO_SUCCESS, false),
    sigIdMatch := fun _ => (FKO_SUCCESS, false) }

/-- Oracle outcome of the GPG path of one stanza: results of the keyless
fko_new_with_data, of the two checked GPG setters, of
fko_decrypt_spa_data, and the resulting context. -/
structure GpgOut where
  newRes : Int
  setExeRes : Int
  setHomeRes : Int
  decryptRes : Int
  ctx : CtxOut

/-- Oracle outcome of the call chain inside get_raw_digest. -/
structure RawDigestOut where
  newRes : Int
  setTypeRes : Int
  getTypeRes : Int
  gotType : Int
  setRes : Int
  getRes : Int
  digest : String
  dupOk : Bool

/-- Oracle outcome of run_extcmd / run_extcmd_as: raw return value and the
waitpid status word, pre-split into WIFEXITED / WEXITSTATUS. -/
structure CmdStatus where
  rawRes : Int
  exited : Bool
  exitStatus : Int

/-- Argument bundle of the symmetric fko_new_with_data call in
handle_rijndael_enc. -/
structure RijndaelArgs where
  data : List Char
  key : String
  key_len : Nat
  enc_mode : Int
  hmac_key : String
  hmac_key_len : Nat
  hmac_type : Int
  sdp_id : Nat

/-- Argument bundle of the GPG decryption attempt in handle_gpg_enc. -/
structure GpgArgs where
  data : List Char
  hmac_key : String
  hmac_key_len : Nat
  hmac_type : Int
  sdp_id : Nat
  gpg_exe : Option String
  gpg_home_dir : Option String
  gpg_decrypt_id : Option String
  gpg_require_sig : Bool
  gpg_ignore_sig_error : Bool
  gpg_decrypt_pw : Option String

/-- One access.conf stanza (acc_stanza_t), restricted to the fields
incoming_spa.c reads.  The address-list and ACL collaborators from
access.c are modelled as predicate fields (compare_addr_list,
acc_check_service_access, acc_check_port_access applied to this stanza). -/
structure AccStanza where
  source_list : Nat → Bool
  destination_list : Option (Nat → Bool)
  access_expire_time : Int
  expired : Bool
  use_rijndael : Bool
  use_gpg : Bool
  key : String
  key_len : Nat
  encryption_mode : Int
  hmac_key : String
  hmac_key_len : Nat
  hmac_type : Int
  enable_cmd_exec : Bool
  enable_cmd_sudo_exec : Bool
  cmd_sudo_exec_user : Option String
  cmd_sudo_exec_group : Option String
  cmd_exec_user : Option String
  cmd_exec_group : Option String
  cmd_exec_uid : Nat
  cmd_exec_gid : Nat
  gpg_exe : Option String
  gpg_home_dir : Option String
  gpg_decrypt_id : Option String
  gpg_decrypt_pw : Option String
  gpg_allow_no_pw : Bool
  gpg_require_sig : Bool
  gpg_ignore_sig_error : Bool
  gpg_remote_id : Option String
  gpg_remote_id_list : List String
  gpg_remote_fpr : Option String
  gpg_remote_fpr_list : List String
  require_source_address : Bool
  require_username : Option String
  fw_access_timeout : Int
  cmd_cycle_open : Option String
  acc_check_service_access : String → Bool
  acc_check_port_access : String → Bool

/-- The shared packet slot spa_pkt_info_t. -/
structure SpaPktInfo where
  packet_data : List Char
  packet_data_len : Nat
  packet_proto : Nat
  packet_src_ip : Nat
  packet_dst_ip : Nat
  packet_src_port : Nat
  packet_dst_port : Nat
  sdp_id : Nat
  sdp_id_str : String
deriving DecidableEq

/-- The per-packet working record spa_data_t. -/
structure SpaData where
  pkt_source_ip : String
  pkt_destination_ip : String
  username : String
  version : String
  timestamp : Int
  message_type : Int
  spa_message : String
  nat_access : String
  server_auth : String
  client_timeout : Int
  fw_access_timeout : Int
  spa_message_src_ip : String
  spa_message_remain : String
  use_src_ip : String
  sdp_id : Nat
  service_data_list : Option (List Nat)
deriving DecidableEq

/-- Initial spa_data_t contents (the C struct is stack-allocated; fields
are written before being read, so zero/empty defaults are adequate). -/
def initSpaData : SpaData :=
  { pkt_source_ip := "", pkt_destination_ip := "", username := "",
    version := "", timestamp := 0, message_type := 0, spa_message := "",
    nat_access := "", server_auth := "", client_timeout := 0,
    fw_access_timeout := 0, spa_message_src_ip := "",
    spa_message_remain := "", use_src_ip := "", sdp_id := 0,
    service_data_list := none }

/-- The server options record fko_srv_options_t, restricted to what the
two source files read.  The identity-mode hash table is modelled as a
lookup function (hash_table_get on acc_stanza_hash_tbl). -/
structure SrvOptions where
  conf_enable_spa_over_http : String
  conf_disable_sdp_mode : String
  conf_enable_digest_persistence : String
  conf_enable_spa_packet_aging : String
  conf_max_spa_packet_age : String
  conf_allow_legacy_access_requests : String
  conf_sudo_exe : String
  conf_enable_firewd_forwarding : String
  conf_enable_ipt_forwarding : String
  conf_enable_firewd_local_nat : String
  conf_enable_ipt_local_nat : String
  test : Bool
  acc_stanzas : List AccStanza
  acc_stanza_hash_tbl : String → Option AccStanza

/-- Oracle environment for the external collaborators of the pipeline:
libfko calls, libc helpers, the command-cycle subsystem, service data
gathering, and clock reads.  All are deterministic functions of their
arguments. -/
structure FkoEnv where
  now : Int
  encType : List Char → Int
  rijndael : RijndaelArgs → CtxOut
  gpg : GpgArgs → GpgOut
  rawDigest : List Char → RawDigestOut
  addReplayOk : List String → String → Bool
  isBase64 : List Char → Nat → Bool
  sdpDecode : String → Int × Nat
  ntop : Nat → String
  parseAge : String → Option Int
  isValidIpv4 : String → Bool
  cmdCycleOpenOk : String → Bool
  extcmd : String → CmdStatus
  serviceData : String → Option (List Nat)
  mutexOk : Bool

/-- Externally visible actions of the pipeline, in order of occurrence. -/
inductive Ev where
  | rijndaelNew : Int → Ev
  | gpgNew : Int → Ev
  | gpgDecrypt : Int → Ev
  | addReplay : String → Ev
  | cmdCycle : Bool → Ev
  | cmdExec : String → Ev
  | fwRequest : Int → Ev
deriving DecidableEq

/-- strstr(hay, needle) != NULL on the C string at the head of hay. -/
def strstrB (hay needle : List Char) : Bool :=
  match hay with
  | [] => needle == []
  | _ :: t => needle.isPrefixOf hay || strstrB t needle

/-- The HTTP-tunnel unwrap inside preprocess_spa_data (lines 102-136):
shifts the buffer left by 5 via strlcpy onto itself, then walks at most
pkt_data_len - 5 characters converting the URL-safe substitutions and
terminating at the first whitespace.  Returns the loop counter i (the
unwrapped length) and the mutated buffer. -/
def http_unwrap (ndx : List Char) (pkt_data_len : Nat) : Nat × List Char :=
  let copied := ((ndx.drop 5).takeWhile (fun c => c != nulC)).take (pkt_data_len - 1)
  let buf1 := copied ++ [nulC] ++ ndx.drop (copied.length + 1)
  let len1 := pkt_data_len - 5
  let region := buf1.take len1
  let i := (region.findIdx? isspaceC).getD len1
  let buf2 := (region.take i).map httpConv ++
    (if i < len1 then nulC :: region.drop (i + 1) else []) ++ buf1.drop len1
  (i, buf2)

/-- The tail of preprocess_spa_data after the HTTP branch (lines 138-186):
the base64 gate and, in SDP mode, the client-id extraction.
fko_base64_decode and the allocator are oracles; allocation failures are
modelled as never occurring. -/
def preprocess_tail (cst : Consts) (E : FkoEnv) (opts : SrvOptions)
    (spa_pkt : SpaPktInfo) (pkt_data_len : Nat) : Int × SpaPktInfo :=
  if !E.isBase64 spa_pkt.packet_data pkt_data_len then
    (SPA_MSG_NOT_SPA_DATA, spa_pkt)
  else if confIs opts.conf_disable_sdp_mode "N" then
    let encoded_sdp_id := String.mk ((cstr spa_pkt.packet_data).take cst.b64SdpIdStrLen)
    let dec := E.sdpDecode encoded_sdp_id
    if dec.1 < 1 then (SPA_MSG_NOT_SPA_DATA, spa_pkt)
    else if dec.2 == 0 then (SPA_MSG_NOT_SPA_DATA, spa_pkt)
    else (FKO_SUCCESS,
      { spa_pkt with
        sdp_id := dec.2
        sdp_id_str := String.mk ((toString dec.2).data.take (cst.maxSdpIdStrLen - 1)) })
  else (FKO_SUCCESS, spa_pkt)

/-- preprocess_spa_data (lines 57-187): length gates, prefix blacklist,
HTTP-tunnel unwrap, base64 gate, SDP-identity extraction.  The packet
length field is zeroed up front; the HTTP branch re-sets it to the
unwrapped length on success. -/
def preprocess_spa_data (cst : Consts) (E : FkoEnv) (opts : SrvOptions)
    (spa_pkt : SpaPktInfo) : Int × SpaPktInfo :=
  let ndx := spa_pkt.packet_data
  let pkt_data_len := spa_pkt.packet_data_len
  let spa_pkt := { spa_pkt with packet_data_len := 0 }
  if pkt_data_len < cst.minSpaDataSize then (SPA_MSG_BAD_DATA, spa_pkt)
  else if cst.maxSpaPacketLen < pkt_data_len then (SPA_MSG_BAD_DATA, spa_pkt)
  else if bytesEqL ndx cst.b64RijndaelSalt cst.b64RijndaelSaltLen then
    (SPA_MSG_BAD_DATA, spa_pkt)
  else if cst.minGnupgMsgSize < pkt_data_len &&
      bytesEqL ndx cst.b64GpgMark cst.b64GpgMarkLen then
    (SPA_MSG_BAD_DATA, spa_pkt)
  else if confIs opts.conf_enable_spa_over_http "Y" &&
      strncaseEqL ndx ("GET /".data) 5 &&
      strstrB (cstr ndx) ("User-Agent: Fwknop".data) then
    let u := http_unwrap ndx pkt_data_len
    if u.1 < cst.minSpaDataSize then
      (SPA_MSG_BAD_DATA, { spa_pkt with packet_data := u.2 })
    else
      preprocess_tail cst E opts
        { spa_pkt with packet_data := u.2, packet_data_len := u.1 } u.1
  else preprocess_tail cst E opts spa_pkt pkt_data_len

/-- precheck_pkt (lines 460-483); the hex-dump branch is logging only. -/
def precheck_pkt (cst : Consts) (E : FkoEnv) (opts : SrvOptions)
    (spa_pkt : SpaPktInfo) : Bool × SpaPktInfo :=
  let r := preprocess_spa_data cst E opts spa_pkt
  (r.1 == FKO_SUCCESS, r.2)

/-- get_raw_digest (lines 191-274): the keyless FKO context used only to
compute the outer message digest of the raw payload. -/
def get_raw_digest (E : FkoEnv) (pkt_data : List Char) : Int × Option String :=
  let o := E.rawDigest pkt_data
  if o.newRes != FKO_SUCCESS then (SPA_MSG_FKO_CTX_ERROR, none)
  else if o.setTypeRes != FKO_SUCCESS then (SPA_MSG_DIGEST_ERROR, none)
  else if o.getTypeRes != FKO_SUCCESS then (SPA_MSG_DIGEST_ERROR, none)
  else if o.gotType != FKO_DEFAULT_DIGEST then (SPA_MSG_DIGEST_ERROR, none)
  else if o.setRes != FKO_SUCCESS then (SPA_MSG_DIGEST_ERROR, none)
  else if o.getRes != FKO_SUCCESS then (SPA_MSG_DIGEST_ERROR, none)
  else if o.dupOk then (FKO_SUCCESS, some o.digest)
  else (SPA_MSG_ERROR, none)

/-- Modelled from the spec: is_replay of replay_cache.c (not under src/)
is the contains test of the persistent digest set (spec 4.2, screen). -/
def is_replay (store : List String) (digest : String) : Int :=
  if digest ∈ store then SPA_MSG_REPLAY else SPA_MSG_SUCCESS

/-- Modelled from the spec: add_replay of replay_cache.c (not under src/)
durably inserts the digest (spec 4.2, commit); the oracle flag lets the
persistence mechanism fail. -/
def add_replay (E : FkoEnv) (store : List String) (digest : String) :
    Int × List String :=
  if E.addReplayOk store digest then (SPA_MSG_SUCCESS, digest :: store)
  else (SPA_MSG_DIGEST_CACHE_ERROR, store)

/-- replay_check (lines 437-458): under digest persistence, compute the
raw digest and reject an already-seen one.  Returns the pass flag and the
digest kept for the later commit. -/
def replay_check (E : FkoEnv) (opts : SrvOptions) (store : List String)
    (spa_pkt : SpaPktInfo) : Bool × Option String :=
  if confIs opts.conf_enable_digest_persistence "Y" then
    let r := get_raw_digest E spa_pkt.packet_data
    if r.1 != FKO_SUCCESS then (false, r.2)
    else
      match r.2 with
      | none => (false, none)
      | some d =>
        if is_replay store d != SPA_MSG_SUCCESS then (false, some d)
        else (true, some d)
  else (true, none)

/-- src_check (lines 377-392): classic-mode coarse filter, some stanza
whose SOURCE list covers the packet source IP must exist. -/
def src_check (opts : SrvOptions) (spa_pkt : SpaPktInfo) : Bool :=
  opts.acc_stanzas.any (fun acc => acc.source_list spa_pkt.packet_src_ip)

/-- sdp_id_check (lines 396-434): identity-mode hash lookup under the
table mutex; zero identity, mutex failure and a missing entry all reject.
bstring creation failure is modelled as never occurring. -/
def sdp_id_check (E : FkoEnv) (opts : SrvOptions) (spa_pkt : SpaPktInfo) :
    Option AccStanza :=
  if spa_pkt.sdp_id == 0 then none
  else if !E.mutexOk then none
  else opts.acc_stanza_hash_tbl spa_pkt.sdp_id_str

/-- src_dst_check (lines 485-499). -/
def src_dst_check (acc : AccStanza) (spa_pkt : SpaPktInfo) : Bool :=
  if !acc.source_list spa_pkt.packet_src_ip ||
      (match acc.destination_list with
       | some dl => !dl spa_pkt.packet_dst_ip
       | none => false) then false
  else true

/-- check_stanza_expiration (lines 350-372); marks the stanza expired. -/
def check_stanza_expiration (E : FkoEnv) (acc : AccStanza) : Bool × AccStanza :=
  if 0 < acc.access_expire_time then
    if acc.expired then (false, acc)
    else if acc.access_expire_time < E.now then (false, { acc with expired := true })
    else (true, acc)
  else (true, acc)

/-- check_pkt_age (lines 327-348). -/
def check_pkt_age (E : FkoEnv) (opts : SrvOptions) (spadat : SpaData)
    (conf_pkt_age : Int) : Bool :=
  if confIs opts.conf_enable_spa_packet_aging "Y" then
    if conf_pkt_age < ((E.now - spadat.timestamp).natAbs : Int) then false
    else true
  else true

/-- The argument bundle handle_rijndael_enc passes to fko_new_with_data. -/
def rij_args (acc : AccStanza) (spa_pkt : SpaPktInfo) : RijndaelArgs :=
  { data := spa_pkt.packet_data, key := acc.key, key_len := acc.key_len,
    enc_mode := acc.encryption_mode, hmac_key := acc.hmac_key,
    hmac_key_len := acc.hmac_key_len, hmac_type := acc.hmac_type,
    sdp_id := spa_pkt.sdp_id }

/-- The argument bundle of the GPG attempt in handle_gpg_enc. -/
def gpg_args (acc : AccStanza) (spa_pkt : SpaPktInfo) : GpgArgs :=
  { data := spa_pkt.packet_data, hmac_key := acc.hmac_key,
    hmac_key_len := acc.hmac_key_len, hmac_type := acc.hmac_type,
    sdp_id := spa_pkt.sdp_id, gpg_exe := acc.gpg_exe,
    gpg_home_dir := acc.gpg_home_dir, gpg_decrypt_id := acc.gpg_decrypt_id,
    gpg_require_sig := acc.gpg_require_sig,
    gpg_ignore_sig_error := acc.gpg_ignore_sig_error,
    gpg_decrypt_pw := acc.gpg_decrypt_pw }

/-- Decryption-phase working state: res, attempted_decrypt,
cmd_exec_success, the live FKO context, and the events so far. -/
structure DecState where
  res : Int
  attempted : Nat
  cmd_exec_success : Nat
  ctx : Option CtxOut
  trace : List Ev
deriving Inhabited

/-- handle_rijndael_enc (lines 628-644). -/
def handle_rijndael_enc (E : FkoEnv) (acc : AccStanza) (spa_pkt : SpaPktInfo)
    (enc_type : Int) (st : DecState) : DecState :=
  if enc_type == FKO_ENCRYPTION_RIJNDAEL || acc.enable_cmd_exec then
    let ctx := E.rijndael (rij_args acc spa_pkt)
    { res := ctx.newRes
      attempted := 1
      cmd_exec_success := if ctx.newRes == FKO_SUCCESS then 1 else st.cmd_exec_success
      ctx := some ctx
      trace := st.trace ++ [Ev.rijndaelNew ctx.newRes] }
  else st

/-- handle_gpg_enc (lines 646-731).  First component 0 mirrors the C
return value 0, which makes process_spa_data KEEP_SEARCHING.  The
unchecked setters (recipient, signature-verify flags) are folded into the
oracle context. -/
def handle_gpg_enc (E : FkoEnv) (acc : AccStanza) (spa_pkt : SpaPktInfo)
    (enc_type : Int) (st : DecState) : Nat × DecState :=
  if acc.use_gpg && enc_type == FKO_ENCRYPTION_GPG && st.cmd_exec_success == 0 then
    if acc.gpg_decrypt_pw.isSome || acc.gpg_allow_no_pw then
      let g := E.gpg (gpg_args acc spa_pkt)
      let st := { st with
        res := g.newRes
        ctx := some g.ctx
        trace := st.trace ++ [Ev.gpgNew g.newRes] }
      if g.newRes != FKO_SUCCESS then (0, st)
      else
        let st := if acc.gpg_exe.isSome then { st with res := g.setExeRes } else st
        if acc.gpg_exe.isSome && g.setExeRes != FKO_SUCCESS then (0, st)
        else
          let st := if acc.gpg_home_dir.isSome then { st with res := g.setHomeRes } else st
          if acc.gpg_home_dir.isSome && g.setHomeRes != FKO_SUCCESS then (0, st)
          else
            (1, { st with
                  res := g.decryptRes
                  attempted := 1
                  trace := st.trace ++ [Ev.gpgDecrypt g.decryptRes] })
    else (1, st)
  else (1, st)

/-- The decryption phase of process_spa_data (lines 1040-1049): the
Rijndael attempt guarded by use_rijndael, then the GPG attempt. -/
def decrypt_phase (E : FkoEnv) (acc : AccStanza) (spa_pkt : SpaPktInfo)
    (enc_type : Int) : Nat × DecState :=
  let st0 : DecState :=
    { res := FKO_SUCCESS, attempted := 0, cmd_exec_success := 0,
      ctx := none, trace := [] }
  let st1 := if acc.use_rijndael then
    handle_rijndael_enc E acc spa_pkt enc_type st0 else st0
  handle_gpg_enc E acc spa_pkt enc_type st1

/-- check_mode_ctx (lines 600-626). -/
def check_mode_ctx (st : DecState) : Bool :=
  if st.attempted == 0 then false
  else if st.res != FKO_SUCCESS then false
  else true

/-- Outcome of add_replay_cache. -/
structure ArOut where
  ok : Bool
  res : Int
  added : Nat
  store : List String
  trace : List Ev

/-- add_replay_cache (lines 917-937): commit the raw digest after a
successful decryption, skipped in test mode.  The addReplay event is
recorded exactly when the insertion succeeded. -/
def add_replay_cache (E : FkoEnv) (opts : SrvOptions) (raw_digest : Option String)
    (added : Nat) (store : List String) : ArOut :=
  if !opts.test && added == 0 &&
      confIs opts.conf_enable_digest_persistence "Y" then
    let d := raw_digest.getD ""
    let r := add_replay E store d
    if r.1 != SPA_MSG_SUCCESS then
      { ok := false, res := r.1, added := added, store := r.2, trace := [] }
    else
      { ok := true, res := r.1, added := 1, store := r.2,
        trace := [Ev.addReplay d] }
  else
    { ok := true, res := SPA_MSG_SUCCESS, added := added, store := store,
      trace := [] }

/-- The early-exit fold over a GPG allow-list (lines 768-821): none models
a comparison error, some b whether any entry matched. -/
def gpg_match_list (f : String → Int × Bool) : List String → Option Bool
  | [] => some false
  | s :: rest =>
    let r := f s
    if r.1 != FKO_SUCCESS then none
    else if r.2 then some true
    else gpg_match_list f rest

/-- handle_gpg_sigs (lines 733-824). -/
def handle_gpg_sigs (acc : AccStanza) (ctx : CtxOut) (enc_type : Int) : Bool :=
  if enc_type == FKO_ENCRYPTION_GPG && acc.gpg_require_sig then
    if ctx.sigIdRes != FKO_SUCCESS then false
    else if ctx.sigFprRes != FKO_SUCCESS then false
    else
      let fprOk := match acc.gpg_remote_fpr with
        | some _ => gpg_match_list ctx.sigFprMatch acc.gpg_remote_fpr_list
        | none => some true
      match fprOk with
      | none => false
      | some false => false
      | some true =>
        match acc.gpg_remote_id with
        | some _ =>
          match gpg_match_list ctx.sigIdMatch acc.gpg_remote_id_list with
          | none => false
          | some false => false
          | some true => true
        | none => true
  else true

/-- get_spa_data_fields (lines 278-325): pull the decoded payload fields
into spa_data_t; the aggregated result code covers the getter chain (on
failure the C partial writes are never read, so spadat is left as-is). -/
def get_spa_data_fields (ctx : CtxOut) (spadat : SpaData) : Int × SpaData :=
  if ctx.fieldsRes == FKO_SUCCESS then
    (FKO_SUCCESS,
     { spadat with
       sdp_id := ctx.fields.sdp_id
       username := ctx.fields.username
       version := ctx.fields.version
       timestamp := ctx.fields.timestamp
       message_type := ctx.fields.message_type
       spa_message := ctx.fields.spa_message
       nat_access := ctx.fields.nat_access
       server_auth := ctx.fields.server_auth
       client_timeout := ctx.fields.client_timeout })
  else (ctx.fieldsRes, spadat)

/-- set_timeout (lines 939-949). -/
def set_timeout (cst : Consts) (acc : AccStanza) (spadat : SpaData) : SpaData :=
  if 0 < spadat.client_timeout then
    { spadat with fw_access_timeout := spadat.client_timeout }
  else if 0 < acc.fw_access_timeout then
    { spadat with fw_access_timeout := acc.fw_access_timeout }
  else { spadat with fw_access_timeout := cst.defFwAccessTimeout }

/-- check_src_access (lines 826-845). -/
def check_src_access (acc : AccStanza) (spadat : SpaData) : Bool × SpaData :=
  if spadat.spa_message_src_ip == "0.0.0.0" then
    if acc.require_source_address then (false, spadat)
    else (true, { spadat with use_src_ip := spadat.pkt_source_ip })
  else (true, { spadat with use_src_ip := spadat.spa_message_src_ip })

/-- check_username (lines 847-862). -/
def check_username (acc : AccStanza) (spadat : SpaData) : Bool :=
  match acc.require_username with
  | some u => spadat.username == u
  | none => true

/-- check_nat_access_types (lines 864-915); the compile-time firewall
backend selection is a constant of the build. -/
def check_nat_access_types (cst : Consts) (opts : SrvOptions)
    (spadat : SpaData) : Bool :=
  let isNat := spadat.message_type == FKO_NAT_ACCESS_MSG ||
    spadat.message_type == FKO_CLIENT_TIMEOUT_NAT_ACCESS_MSG
  let isLocalNat := spadat.message_type == FKO_LOCAL_NAT_ACCESS_MSG ||
    spadat.message_type == FKO_CLIENT_TIMEOUT_LOCAL_NAT_ACCESS_MSG
  let not_enabled :=
    (isNat && (match cst.fwBackend with
      | FwBackend.firewd => !confIs opts.conf_enable_firewd_forwarding "Y"
      | FwBackend.ipt => !confIs opts.conf_enable_ipt_forwarding "Y"
      | FwBackend.noFirewall => false)) ||
    (!isNat && isLocalNat && (match cst.fwBackend with
      | FwBackend.firewd => !confIs opts.conf_enable_firewd_local_nat "Y"
      | FwBackend.ipt => !confIs opts.conf_enable_ipt_local_nat "Y"
      | FwBackend.noFirewall => false))
  let unsupported := (isNat || isLocalNat) && cst.fwBackend == FwBackend.noFirewall
  if not_enabled then false
  else if unsupported then false
  else true

/-- check_service_access (lines 952-964). -/
def check_service_access (acc : AccStanza) (spadat : SpaData) : Bool :=
  acc.acc_check_service_access spadat.spa_message_remain

/-- gather_service_information (lines 968-983). -/
def gather_service_information (E : FkoEnv) (spadat : SpaData) : Bool × SpaData :=
  match E.serviceData spadat.spa_message_remain with
  | some l => (true, { spadat with service_data_list := some l })
  | none => (false, spadat)

/-- check_port_proto (lines 986-998). -/
def check_port_proto (acc : AccStanza) (spadat : SpaData) : Bool :=
  acc.acc_check_port_access spadat.spa_message_remain

/-- The cmd_buf construction of process_cmd_msg (lines 533-558).  Note:
the source guards the -g clause on cmd_exec_group being set while passing
cmd_sudo_exec_group to both strncasecmp and strlcat; with cmd_exec_group
set and cmd_sudo_exec_group unset the C dereferences NULL (modelled here
as appending nothing). -/
def build_sudo_cmd (cst : Consts) (opts : SrvOptions) (acc : AccStanza)
    (spadat : SpaData) : String :=
  if acc.enable_cmd_sudo_exec then
    let buf := strlcpyS opts.conf_sudo_exe cst.maxSpaCmdLen
    let buf := match acc.cmd_sudo_exec_user with
      | some u =>
        if !strncaseEqS u "root" 4 then
          strlcatS (strlcatS buf " -u " cst.maxSpaCmdLen) u cst.maxSpaCmdLen
        else buf
      | none => buf
    let buf := match acc.cmd_exec_group, acc.cmd_sudo_exec_group with
      | some _, some g =>
        if !strncaseEqS g "root" 4 then
          strlcatS (strlcatS buf " -g " cst.maxSpaCmdLen) g cst.maxSpaCmdLen
        else buf
      | some _, none => buf
      | none, _ => buf
    strlcatS (strlcatS buf " " cst.maxSpaCmdLen) spadat.spa_message_remain
      cst.maxSpaCmdLen
  else strlcpyS spadat.spa_message_remain cst.maxSpaCmdLen

/-- process_cmd_msg (lines 503-598): returns the C return value (1 means
the command was handled on this stanza), the translated res, and the
events.  The command is run setuid when a non-root cmd_exec_user is set;
both paths record the executed command string. -/
def process_cmd_msg (cst : Consts) (E : FkoEnv) (opts : SrvOptions)
    (acc : AccStanza) (spadat : SpaData) : Nat × Int × List Ev :=
  if !acc.enable_cmd_exec then (0, FKO_SUCCESS, [])
  else if opts.test then (0, FKO_SUCCESS, [])
  else
    let cmd_buf := build_sudo_cmd cst opts acc spadat
    let status := E.extcmd cmd_buf
    let res :=
      if status.exited then
        if status.exitStatus != 0 then SPA_MSG_COMMAND_ERROR else status.rawRes
      else SPA_MSG_COMMAND_ERROR
    (1, res, [Ev.cmdExec cmd_buf])

/-- The common tail of process_spa_data (lines 1242-1271): the test-mode
short-circuit and the firewall request (the second cmd_cycle test is dead
code in the source, mirrored regardless). -/
def psd_finish (E : FkoEnv) (opts : SrvOptions) (acc : AccStanza)
    (spadat : SpaData) : Nat × List Ev :=
  if opts.test then (KEEP_SEARCHING, [])
  else
    match acc.cmd_cycle_open with
    | some c =>
      if E.cmdCycleOpenOk c then (STOP_SEARCHING, [Ev.cmdCycle true])
      else (KEEP_SEARCHING, [Ev.cmdCycle false])
    | none => (STOP_SEARCHING, [Ev.fwRequest spadat.fw_access_timeout])

/-- The scope-policy stage of process_spa_data (lines 1224-1240): service
ACL for the service-access variants, port/protocol ACL otherwise, then the
common tail. -/
def psd_scope (E : FkoEnv) (opts : SrvOptions) (acc : AccStanza)
    (spadat : SpaData) (msg_type : Int) : Nat × List Ev × SpaData :=
  if msg_type == FKO_SERVICE_ACCESS_MSG ||
      msg_type == FKO_CLIENT_TIMEOUT_SERVICE_ACCESS_MSG then
    if !check_service_access acc spadat then (STOP_SEARCHING, [], spadat)
    else
      match gather_service_information E spadat with
      | (false, spadat) => (STOP_SEARCHING, [], spadat)
      | (true, spadat) =>
        let f := psd_finish E opts acc spadat
        (f.1, f.2, spadat)
  else if !check_port_proto acc spadat then (KEEP_SEARCHING, [], spadat)
  else
    let f := psd_finish E opts acc spadat
    (f.1, f.2, spadat)

/-- The dispatch stage of process_spa_data (lines 1192-1240): command
cycle first, then COMMAND messages, then the scope stage. -/
def psd_dispatch (cst : Consts) (E : FkoEnv) (opts : SrvOptions)
    (acc : AccStanza) (spadat : SpaData) (msg_type : Int) :
    Nat × List Ev × SpaData :=
  match acc.cmd_cycle_open with
  | some c =>
    if E.cmdCycleOpenOk c then (STOP_SEARCHING, [Ev.cmdCycle true], spadat)
    else (KEEP_SEARCHING, [Ev.cmdCycle false], spadat)
  | none =>
    if spadat.message_type == FKO_COMMAND_MSG then
      let r := process_cmd_msg cst E opts acc spadat
      if r.1 == 1 then (STOP_SEARCHING, r.2.2, spadat)
      else (KEEP_SEARCHING, r.2.2, spadat)
    else psd_scope E opts acc spadat msg_type

/-- The validation chain of process_spa_data after the message-type gate
(lines 1094-1240): GPG signer check, field extraction, timeout, packet
age, embedded-source parsing, source/username/NAT policies, dispatch. -/
def psd_rest (cst : Consts) (E : FkoEnv) (opts : SrvOptions) (acc : AccStanza)
    (spadat : SpaData) (msg_type : Int) (ctx : CtxOut) (enc_type : Int)
    (conf_pkt_age : Int) : Nat × List Ev × SpaData :=
  if !handle_gpg_sigs acc ctx enc_type then (KEEP_SEARCHING, [], spadat)
  else
    let gf := get_spa_data_fields ctx spadat
    if gf.1 != FKO_SUCCESS then (KEEP_SEARCHING, [], gf.2)
    else
      let spadat := set_timeout cst acc gf.2
      if !check_pkt_age E opts spadat conf_pkt_age then (KEEP_SEARCHING, [], spadat)
      else
        match spadat.spa_message.data.findIdx? (fun c => c == ',') with
        | none => (KEEP_SEARCHING, [], spadat)
        | some idx =>
          if idx < cst.minIpv4StrLen - 1 ∨ cst.maxIpv4StrLen < idx then
            (STOP_SEARCHING, [], spadat)
          else
            let spadat := { spadat with
              spa_message_src_ip := String.mk (spadat.spa_message.data.take idx) }
            if !E.isValidIpv4 spadat.spa_message_src_ip then
              (STOP_SEARCHING, [], spadat)
            else
              let spadat := { spadat with
                spa_message_remain := String.mk
                  ((spadat.spa_message.data.drop (idx + 1)).take
                    (cst.maxDecryptedSpaLen - 1)) }
              match check_src_access acc spadat with
              | (false, spadat) => (KEEP_SEARCHING, [], spadat)
              | (true, spadat) =>
                if confIs opts.conf_disable_sdp_mode "Y" &&
                    !check_username acc spadat then
                  (KEEP_SEARCHING, [], spadat)
                else if !check_nat_access_types cst opts spadat then
                  (KEEP_SEARCHING, [], spadat)
                else psd_dispatch cst E opts acc spadat msg_type

/-- process_spa_data after the replay-cache commit (lines 1069-1271):
message-type getter, the legacy-access gate, then the validation chain. -/
def psd_post (cst : Consts) (E : FkoEnv) (opts : SrvOptions) (acc : AccStanza)
    (spadat : SpaData) (ctx : CtxOut) (enc_type : Int) (conf_pkt_age : Int) :
    Nat × List Ev × SpaData :=
  if ctx.msgTypeRes != FKO_SUCCESS then (STOP_SEARCHING, [], spadat)
  else if ctx.msgType != FKO_SERVICE_ACCESS_MSG &&
      ctx.msgType != FKO_CLIENT_TIMEOUT_SERVICE_ACCESS_MSG &&
      ctx.msgType != FKO_COMMAND_MSG &&
      confIs opts.conf_allow_legacy_access_requests "N" then
    (STOP_SEARCHING, [], spadat)
  else psd_rest cst E opts acc spadat ctx.msgType ctx enc_type conf_pkt_age

/-- Result of one process_spa_data call. -/
structure PsdOut where
  verdict : Nat
  trace : List Ev
  acc : AccStanza
  spadat : SpaData
  store : List String

/-- process_spa_data from the replay-cache commit onward (lines
1057-1271), assembling the full trace. -/
def psd_validate (cst : Consts) (E : FkoEnv) (opts : SrvOptions)
    (acc : AccStanza) (spadat : SpaData) (raw_digest : Option String)
    (conf_pkt_age : Int) (store : List String) (st : DecState)
    (enc_type : Int) : PsdOut :=
  let ar := add_replay_cache E opts raw_digest 0 store
  if !ar.ok then
    { verdict := KEEP_SEARCHING, trace := st.trace ++ ar.trace, acc := acc,
      spadat := spadat, store := ar.store }
  else
    let ctx := st.ctx.getD defaultCtxOut
    let p := psd_post cst E opts acc spadat ctx enc_type conf_pkt_age
    { verdict := p.1, trace := st.trace ++ ar.trace ++ p.2.1, acc := acc,
      spadat := p.2.2, store := ar.store }

/-- process_spa_data (lines 1002-1272). -/
def process_spa_data (cst : Consts) (E : FkoEnv) (opts : SrvOptions)
    (acc : AccStanza) (spa_pkt : SpaPktInfo) (spadat : SpaData)
    (raw_digest : Option String) (conf_pkt_age : Int) (store : List String) :
    PsdOut :=
  if !src_dst_check acc spa_pkt then
    { verdict := KEEP_SEARCHING, trace := [], acc := acc, spadat := spadat,
      store := store }
  else
    let ce := check_stanza_expiration E acc
    if !ce.1 then
      { verdict := KEEP_SEARCHING, trace := [], acc := ce.2, spadat := spadat,
        store := store }
    else
      let enc_type := E.encType spa_pkt.packet_data
      let dp := decrypt_phase E ce.2 spa_pkt enc_type
      if dp.1 == 0 then
        { verdict := KEEP_SEARCHING, trace := dp.2.trace, acc := ce.2,
          spadat := spadat, store := store }
      else if !check_mode_ctx dp.2 then
        { verdict := KEEP_SEARCHING, trace := dp.2.trace, acc := ce.2,
          spadat := spadat, store := store }
      else
        psd_validate cst E opts ce.2 spadat raw_digest conf_pkt_age store
          dp.2 enc_type

/-- The classic-mode stanza loop of incoming_spa (lines 1345-1374):
try each stanza in order, stopping at the first verdict other than
KEEP_SEARCHING; spa_data and the replay store thread through. -/
def spa_stanza_loop (cst : Consts) (E : FkoEnv) (opts : SrvOptions)
    (spa_pkt : SpaPktInfo) (raw_digest : Option String) (conf_pkt_age : Int) :
    List AccStanza → SpaData → List String → List Ev × List String
  | [], _, store => ([], store)
  | acc :: rest, spadat, store =>
    let out := process_spa_data cst E opts acc spa_pkt spadat raw_digest
      conf_pkt_age store
    if out.verdict == KEEP_SEARCHING then
      let r := spa_stanza_loop cst E opts spa_pkt raw_digest conf_pkt_age
        rest out.spadat out.store
      (out.trace ++ r.1, r.2)
    else (out.trace, out.store)

/-- The MAX_SPA_PACKET_AGE parse of incoming_spa (lines 1329-1338);
strtol_wrapper is an oracle, none meaning a range/parse error. -/
def age_conf (E : FkoEnv) (opts : SrvOptions) : Option Int :=
  if confIs opts.conf_enable_spa_packet_aging "Y" then E.parseAge opts.conf_max_spa_packet_age
  else some 0

/-- Result of one incoming_spa call: the events it caused and the replay
store it leaves behind. -/
structure IncOut where
  trace : List Ev
  store : List String

/-- incoming_spa (lines 1277-1400): preprocess, replay screen, policy
index (classic source scan or identity hash lookup), age-limit parse,
then the stanza search. -/
def incoming_spa (cst : Consts) (E : FkoEnv) (opts : SrvOptions)
    (store : List String) (spa_pkt : SpaPktInfo) : IncOut :=
  let spadat := { initSpaData with
    pkt_source_ip := E.ntop spa_pkt.packet_src_ip,
    pkt_destination_ip := E.ntop spa_pkt.packet_dst_ip }
  let pc := precheck_pkt cst E opts spa_pkt
  if !pc.1 then { trace := [], store := store }
  else
    let spa_pkt := pc.2
    let rc := replay_check E opts store spa_pkt
    if !rc.1 then { trace := [], store := store }
    else
      if confIs opts.conf_disable_sdp_mode "Y" then
        if !src_check opts spa_pkt then { trace := [], store := store }
        else
          match age_conf E opts with
          | none => { trace := [], store := store }
          | some conf_pkt_age =>
            let r := spa_stanza_loop cst E opts spa_pkt rc.2 conf_pkt_age
              opts.acc_stanzas spadat store
            { trace := r.1, store := r.2 }
      else
        match sdp_id_check E opts spa_pkt with
        | none => { trace := [], store := store }
        | some acc =>
          match age_conf E opts with
          | none => { trace := [], store := store }
          | some conf_pkt_age =>
            let out := process_spa_data cst E opts acc spa_pkt spadat rc.2
              conf_pkt_age store
            { trace := out.trace, store := out.store }

/-- The per-datagram step of run_udp_server (udp_server.c lines 216-247):
some slot means incoming_spa is invoked with the shared slot in that
state.  recv is the recvfrom outcome (none on error); dgram_msg is
zero-filled before each receive, so the strlcpy source is the datagram
bytes zero-padded, and the copy stops at the first NUL byte. -/
def run_udp_server_step (cst : Consts) (slot : SpaPktInfo)
    (recv : Option (List Char)) (src_ip dst_ip src_port dst_port : Nat) :
    Option SpaPktInfo :=
  match recv with
  | none => none
  | some bytes =>
    let pkt_len := bytes.length
    if 0 < pkt_len ∧ pkt_len ≤ cst.maxSpaPacketLen then
      let copied := (bytes.takeWhile (fun c => c != nulC)).take pkt_len
      some { slot with
        packet_data := copied ++ [nulC] ++ slot.packet_data.drop (copied.length + 1),
        packet_data_len := pkt_len,
        packet_proto := 17,
        packet_src_ip := src_ip, packet_dst_ip := dst_ip,
        packet_src_port := src_port, packet_dst_port := dst_port,
        sdp_id := 0 }
    else none

/-- Modelled from the spec: the command string the Request Dispatcher is
specified to build for sudo execution — the sudo executable, then
" -u user" unless the sudo exec user is unset or root, then " -g group"
unless the sudo exec group is unset or root, then the decoded body
(spec 4.6). -/
def spec_sudo_cmd (sudo_exe : String) (user group : Option String)
    (body : String) : String :=
  sudo_exe ++
    (match user with
     | some u => if u != "root" then " -u " ++ u else ""
     | none => "") ++
    (match group with
     | some g => if g != "root" then " -g " ++ g else ""
     | none => "") ++ " " ++ body

/-! Concrete scenario used by the witnesses: the upstream constant values,
a single-stanza classic-mode configuration, and an oracle environment on
which a Rijndael service-access packet passes every stage. -/

/-- The constants with their upstream fwknopd values. -/
def cW : Consts :=
  { minSpaDataSize := 80, maxSpaPacketLen := 1500, minGnupgMsgSize := 400,
    b64RijndaelSalt := "U2FsdGVkX1".data, b64RijndaelSaltLen := 10,
    b64GpgMark := "hQ".data, b64GpgMarkLen := 2, b64SdpIdStrLen := 6,
    maxSdpIdStrLen := 11, minIpv4StrLen := 7, maxIpv4StrLen := 15,
    maxDecryptedSpaLen := 1024, maxSpaCmdLen := 2048,
    defFwAccessTimeout := 30, fwBackend := FwBackend.ipt }

/-- Decoded payload of the scenario packet: a service-access request for
service 22 from 1.2.3.4 with a 30-second client timeout. -/
def fieldsW : SpaFields :=
  { disable_sdp_mode := 1, sdp_id := 0, username := "user1",
    version := "3.0.0", timestamp := 1000,
    message_type := FKO_SERVICE_ACCESS_MSG, spa_message := "1.2.3.4,22",
    nat_access := "", server_auth := "", client_timeout := 30 }

/-- Context the oracle returns for a successful decryption. -/
def ctxW : CtxOut :=
  { newRes := FKO_SUCCESS, msgTypeRes := FKO_SUCCESS,
    msgType := FKO_SERVICE_ACCESS_MSG, fieldsRes := FKO_SUCCESS,
    fields := fieldsW, sigIdRes := FKO_SUCCESS, sigId := "",
    sigFprRes := FKO_SUCCESS, sigFpr := "",
    sigFprMatch := fun _ => (FKO_SUCCESS, false),
    sigIdMatch := fun _ => (FKO_SUCCESS, false) }

/-- The scenario stanza: Rijndael key, open source list, service and port
ACLs that admit everything. -/
def accW : AccStanza :=
  { source_list := fun _ => true, destination_list := none,
    access_expire_time := 0, expired := false, use_rijndael := true,
    use_gpg := false, key := "abcdef", key_len := 6, encryption_mode := 2,
    hmac_key := "hmackey", hmac_key_len := 7, hmac_type := 3,
    enable_cmd_exec := false, enable_cmd_sudo_exec := false,
    cmd_sudo_exec_user := none, cmd_sudo_exec_group := none,
    cmd_exec_user := none, cmd_exec_group := none, cmd_exec_uid := 0,
    cmd_exec_gid := 0, gpg_exe := none, gpg_home_dir := none,
    gpg_decrypt_id := none, gpg_decrypt_pw := none, gpg_allow_no_pw := false,
    gpg_require_sig := false, gpg_ignore_sig_error := false,
    gpg_remote_id := none, gpg_remote_id_list := [], gpg_remote_fpr := none,
    gpg_remote_fpr_list := [], require_source_address := false,
    require_username := none, fw_access_timeout := 45,
    cmd_cycle_open := none,
    acc_check_service_access := fun _ => true,
    acc_check_port_access := fun _ => true }

/-- The scenario server options: classic mode, digest persistence on,
aging off, legacy requests denied, not in test mode. -/
def oW : SrvOptions :=
  { conf_enable_spa_over_http := "N", conf_disable_sdp_mode := "Y",
    conf_enable_digest_persistence := "Y",
    conf_enable_spa_packet_aging := "N", conf_max_spa_packet_age := "120",
    conf_allow_legacy_access_requests := "N",
    conf_sudo_exe := "/usr/bin/sudo", conf_enable_firewd_forwarding := "N",
    conf_enable_ipt_forwarding := "N", conf_enable_firewd_local_nat := "N",
    conf_enable_ipt_local_nat := "N", test := false,
    acc_stanzas := [accW], acc_stanza_hash_tbl := fun _ => none }

/-- The scenario oracle environment: the packet carries Rijndael data that
decrypts to ctxW; the raw digest of any payload is the string DG1. -/
def eW : FkoEnv :=
  { now := 1000, encType := fun _ => FKO_ENCRYPTION_RIJNDAEL,
    rijndael := fun _ => ctxW,
    gpg := fun _ => { newRes := FKO_SUCCESS, setExeRes := FKO_SUCCESS,
                      setHomeRes := FKO_SUCCESS, decryptRes := FKO_SUCCESS,
                      ctx := ctxW },
    rawDigest := fun _ => { newRes := FKO_SUCCESS, setTypeRes := FKO_SUCCESS,
                            getTypeRes := FKO_SUCCESS,
                            gotType := FKO_DEFAULT_DIGEST,
                            setRes := FKO_SUCCESS, getRes := FKO_SUCCESS,
                            digest := "DG1", dupOk := true },
    addReplayOk := fun _ _ => true, isBase64 := fun _ _ => true,
    sdpDecode := fun _ => (4, 77), ntop := fun _ => "9.9.9.9",
    parseAge := fun _ => some 120, isValidIpv4 := fun _ => true,
    cmdCycleOpenOk := fun _ => true,
    extcmd := fun _ => { rawRes := 0, exited := true, exitStatus := 0 },
    serviceData := fun _ => some [1], mutexOk := true }

/-- The scenario packet: 100 bytes of base64-looking payload. -/
def pktW : SpaPktInfo :=
  { packet_data := List.replicate 100 'A' ++ [nulC], packet_data_len := 100,
    packet_proto := 17, packet_src_ip := 16909060, packet_dst_ip := 16909061,
    packet_src_port := 40000, packet_dst_port := 62201, sdp_id := 0,
    sdp_id_str := "" }


/-- Context variant for a legacy-typed payload (plain ACCESS message). -/
def ctxW4 : CtxOut :=
  { ctxW with msgType := FKO_ACCESS_MSG,
              fields := { fieldsW with message_type := FKO_ACCESS_MSG } }

/-- Options variant with legacy access requests allowed. -/
def oW4 : SrvOptions :=
  { oW with conf_allow_legacy_access_requests := "Y" }


/-- Stanza variant whose service ACL denies every request. -/
def accW5s : AccStanza :=
  { accW with acc_check_service_access := fun _ => false }

/-- Stanza variant whose port/protocol ACL denies every request. -/
def accW5p : AccStanza :=
  { accW with acc_check_port_access := fun _ => false }

/-- Decoded data for a plain access request (legacy type 1). -/
def sdW5 : SpaData :=
  { initSpaData with message_type := FKO_ACCESS_MSG,
                     spa_message := "1.2.3.4,tcp/22" }


/-- Options variant that turns on test mode (--test). -/
def oW9 : SrvOptions :=
  { oW with test := true }

/-- Decryption-phase state of the scenario packet. -/
def stW9 : DecState :=
  (decrypt_phase eW accW pktW (eW.encType pktW.packet_data)).2

/-- Scenario spa_data after field extraction. -/
def sdW9a : SpaData := (get_spa_data_fields ctxW initSpaData).2

/-- Scenario spa_data after the embedded source IP is split off. -/
def sdW9c : SpaData :=
  { set_timeout cW accW sdW9a with spa_message_src_ip := String.mk ((set_timeout cW accW sdW9a).spa_message.data.take 7) }

/-- Scenario spa_data with the post-comma message remainder. -/
def sdW9d : SpaData :=
  { sdW9c with spa_message_remain := String.mk ((sdW9c.spa_message.data.drop (7 + 1)).take (cW.maxDecryptedSpaLen - 1)) }

/-- Scenario spa_data after the source-address policy check. -/
def sdW9e : SpaData := (check_src_access accW sdW9d).2


/-- Stanza variant for sudo command execution: group admin is configured
for sudo while the plain cmd_exec_group is left unset. -/
def accW6 : AccStanza :=
  { accW with enable_cmd_exec := true, enable_cmd_sudo_exec := true,
              cmd_sudo_exec_group := some "admin" }

/-- Decoded data of a command payload whose body is touch /tmp/x. -/
def sdW6 : SpaData :=
  { initSpaData with message_type := FKO_COMMAND_MSG,
                     spa_message_remain := "touch /tmp/x" }

/-- Options variant accepting SPA over HTTP. -/
def oW7 : SrvOptions :=
  { oW with conf_enable_spa_over_http := "Y" }

/-- An HTTP-wrapped SPA packet: the GET request carries 85 base64 bytes
before the first space of the request line. -/
def pktW7 : SpaPktInfo :=
  { pktW with
      packet_data := ("GET /".data ++ List.replicate 85 'B' ++
        " HTTP/1.0\r\nUser-Agent: Fwknop/2.6\r\n\r\n".data ++ [nulC]),
      packet_data_len := 129 }

/-- Packet slot holding stale bytes from an earlier datagram. -/
def pktW10 : SpaPktInfo :=
  { pktW with packet_data := "WXYZ".data }

/-- Classifier for decryption-phase events. -/
def isDecEv (e : Ev) : Prop :=
  (∃ r, e = Ev.rijndaelNew r) ∨ (∃ r, e = Ev.gpgNew r) ∨ (∃ r, e = Ev.gpgDecrypt r)

/-- Classifier for dispatch-stage events. -/
def isActEv (e : Ev) : Prop :=
  (∃ s, e = Ev.cmdExec s) ∨ (∃ b, e = Ev.cmdCycle b) ∨ (∃ t, e = Ev.fwRequest t)

end Fwknop

namespace Fwknop

theorem handle_rijndael_enc_trace (E : FkoEnv) (acc : AccStanza)
    (spa_pkt : SpaPktInfo) (enc_type : Int) (st : DecState)
    (h : ∀ e ∈ st.trace, isDecEv e) :
    ∀ e ∈ (handle_rijndael_enc E acc spa_pkt enc_type st).trace, isDecEv e := by
  unfold handle_rijndael_enc
  split
  · intro e he
    simp only [List.mem_append, List.mem_singleton] at he
    rcases he with he | he
    · exact h e he
    · exact Or.inl ⟨_, he⟩
  · exact h

theorem handle_gpg_enc_trace (E : FkoEnv) (acc : AccStanza)
    (spa_pkt : SpaPktInfo) (enc_type : Int) (st : DecState)
    (h : ∀ e ∈ st.trace, isDecEv e) :
    ∀ e ∈ (handle_gpg_enc E acc spa_pkt enc_type st).2.trace, isDecEv e := by
  intro e he
  unfold handle_gpg_enc at he
  simp only [apply_ite Prod.snd, apply_ite DecState.trace] at he
  repeat' split at he
  all_goals first
    | exact h e he
    | (simp only [List.mem_append, List.mem_singleton] at he
       rcases he with he | rfl
       · exact h e he
       · simp [isDecEv])
    | (simp only [List.mem_append, List.mem_singleton] at he
       rcases he with (he | rfl) | rfl
       · exact h e he
       · simp [isDecEv]
       · simp [isDecEv])

theorem decrypt_phase_trace (E : FkoEnv) (acc : AccStanza)
    (spa_pkt : SpaPktInfo) (enc_type : Int) :
    ∀ e ∈ (decrypt_phase E acc spa_pkt enc_type).2.trace, isDecEv e := by
  unfold decrypt_phase
  apply handle_gpg_enc_trace
  split
  · apply handle_rijndael_enc_trace
    intro e he
    simp at he
  · intro e he
    simp at he

theorem handle_gpg_enc_cases (E : FkoEnv) (acc : AccStanza) (spa_pkt : SpaPktInfo)
    (enc_type : Int) (s1 st : DecState)
    (h : handle_gpg_enc E acc spa_pkt enc_type s1 = (1, st)) :
    st = s1 ∨
    (st.attempted = 1 ∧ st.res = (E.gpg (gpg_args acc spa_pkt)).decryptRes ∧
     ∃ r, st.trace = s1.trace ++ [Ev.gpgNew r] ++ [Ev.gpgDecrypt st.res]) := by
  unfold handle_gpg_enc at h
  try dsimp only at h
  repeat' split at h
  all_goals injection h with h1 h2
  all_goals first
    | exact absurd h1 (by decide)
    | (subst h2; exact Or.inl rfl)
    | (subst h2
       exact Or.inr ⟨rfl, rfl, (E.gpg (gpg_args acc spa_pkt)).newRes, rfl⟩)

theorem decrypt_success_ev (E : FkoEnv) (acc : AccStanza) (spa_pkt : SpaPktInfo)
    (enc_type : Int) (st : DecState)
    (h : decrypt_phase E acc spa_pkt enc_type = (1, st))
    (ha : st.attempted ≠ 0) (hr : st.res = FKO_SUCCESS) :
    Ev.rijndaelNew FKO_SUCCESS ∈ st.trace ∨ Ev.gpgDecrypt FKO_SUCCESS ∈ st.trace := by
  unfold decrypt_phase at h
  dsimp only at h
  rcases handle_gpg_enc_cases E acc spa_pkt enc_type _ st h with hst | ⟨hat, hres, r, htr⟩
  · by_cases hur : acc.use_rijndael = true
    · rw [if_pos hur] at hst
      unfold handle_rijndael_enc at hst
      split at hst
      · subst hst
        simp only [DecState.res] at hr
        left
        simp [hr]
      · subst hst
        exact absurd rfl ha
    · rw [if_neg hur] at hst
      subst hst
      exact absurd rfl ha
  · right
    rw [htr, hr]
    simp

theorem process_cmd_msg_trace (cst : Consts) (E : FkoEnv) (opts : SrvOptions)
    (acc : AccStanza) (spadat : SpaData) :
    ∀ e ∈ (process_cmd_msg cst E opts acc spadat).2.2, isActEv e := by
  suffices key : ∀ r res tl,
      process_cmd_msg cst E opts acc spadat = (r, res, tl) →
        ∀ e ∈ tl, isActEv e by
    exact key _ _ _ rfl
  intro r res tl h
  unfold process_cmd_msg at h
  repeat' split at h
  all_goals try dsimp only at h
  all_goals injection h with h1 h2
  all_goals injection h2 with h2 h3
  all_goals subst h3
  all_goals intro e he
  all_goals simp only [List.mem_singleton, List.not_mem_nil] at he
  all_goals first
    | exact he.elim
    | (subst he; simp [isActEv])

theorem psd_finish_trace (E : FkoEnv) (opts : SrvOptions) (acc : AccStanza)
    (spadat : SpaData) :
    ∀ e ∈ (psd_finish E opts acc spadat).2, isActEv e := by
  suffices key : ∀ v tl, psd_finish E opts acc spadat = (v, tl) →
      ∀ e ∈ tl, isActEv e by
    exact key _ _ rfl
  intro v tl h
  unfold psd_finish at h
  repeat' split at h
  all_goals try dsimp only at h
  all_goals injection h with h1 h2
  all_goals subst h2
  all_goals intro e he
  all_goals simp only [List.mem_singleton, List.not_mem_nil] at he
  all_goals first
    | exact he.elim
    | (subst he; simp [isActEv])

theorem psd_scope_trace (E : FkoEnv) (opts : SrvOptions) (acc : AccStanza)
    (spadat : SpaData) (msg_type : Int) :
    ∀ e ∈ (psd_scope E opts acc spadat msg_type).2.1, isActEv e := by
  suffices key : ∀ v tl sd, psd_scope E opts acc spadat msg_type = (v, tl, sd) →
      ∀ e ∈ tl, isActEv e by
    exact key _ _ _ rfl
  intro v tl sd h
  unfold psd_scope at h
  repeat' split at h
  all_goals try dsimp only at h
  all_goals injection h with h1 h2
  all_goals injection h2 with h2 h3
  all_goals subst h2
  all_goals first
    | exact psd_finish_trace E opts acc _
    | (intro e he; simp only [List.not_mem_nil] at he)

theorem psd_dispatch_trace (cst : Consts) (E : FkoEnv) (opts : SrvOptions)
    (acc : AccStanza) (spadat : SpaData) (msg_type : Int) :
    ∀ e ∈ (psd_dispatch cst E opts acc spadat msg_type).2.1, isActEv e := by
  suffices key : ∀ v tl sd,
      psd_dispatch cst E opts acc spadat msg_type = (v, tl, sd) →
        ∀ e ∈ tl, isActEv e by
    exact key _ _ _ rfl
  intro v tl sd h
  unfold psd_dispatch at h
  try dsimp only at h
  repeat' split at h
  all_goals first
    | (have hQ := congrArg (fun p => Prod.fst (Prod.snd p)) h
       dsimp only at hQ
       exact hQ ▸ psd_scope_trace E opts acc spadat msg_type)
    | (injection h with h1 h2
       injection h2 with h2 h3
       subst h2
       first
         | exact process_cmd_msg_trace cst E opts acc spadat
         | (intro e he
            simp only [List.mem_singleton, List.not_mem_nil] at he
            first
              | exact he.elim
              | (subst he; simp [isActEv])))

theorem psd_rest_trace (cst : Consts) (E : FkoEnv) (opts : SrvOptions)
    (acc : AccStanza) (spadat : SpaData) (msg_type : Int) (ctx : CtxOut)
    (enc_type : Int) (conf_pkt_age : Int) :
    ∀ e ∈ (psd_rest cst E opts acc spadat msg_type ctx enc_type conf_pkt_age).2.1,
      isActEv e := by
  suffices key : ∀ v tl sd,
      psd_rest cst E opts acc spadat msg_type ctx enc_type conf_pkt_age
        = (v, tl, sd) → ∀ e ∈ tl, isActEv e by
    exact key _ _ _ rfl
  intro v tl sd h
  unfold psd_rest at h
  try dsimp only at h
  repeat' split at h
  all_goals first
    | (have hQ := congrArg (fun p => Prod.fst (Prod.snd p)) h
       dsimp only at hQ
       exact hQ ▸ psd_dispatch_trace cst E opts acc _ msg_type)
    | (injection h with h1 h2
       injection h2 with h2 h3
       subst h2
       intro e he
       simp only [List.not_mem_nil] at he)

theorem psd_post_trace (cst : Consts) (E : FkoEnv) (opts : SrvOptions)
    (acc : AccStanza) (spadat : SpaData) (ctx : CtxOut) (enc_type : Int)
    (conf_pkt_age : Int) :
    ∀ e ∈ (psd_post cst E opts acc spadat ctx enc_type conf_pkt_age).2.1,
      isActEv e := by
  suffices key : ∀ v tl sd,
      psd_post cst E opts acc spadat ctx enc_type conf_pkt_age = (v, tl, sd) →
        ∀ e ∈ tl, isActEv e by
    exact key _ _ _ rfl
  intro v tl sd h
  unfold psd_post at h
  try dsimp only at h
  repeat' split at h
  all_goals first
    | (have hQ := congrArg (fun p => Prod.fst (Prod.snd p)) h
       dsimp only at hQ
       exact hQ ▸ psd_rest_trace cst E opts acc spadat ctx.msgType ctx enc_type
         conf_pkt_age)
    | (injection h with h1 h2
       injection h2 with h2 h3
       subst h2
       intro e he
       simp only [List.not_mem_nil] at he)

theorem check_mode_ctx_true (st : DecState) (h : check_mode_ctx st = true) :
    st.attempted ≠ 0 ∧ st.res = FKO_SUCCESS := by
  unfold check_mode_ctx at h
  repeat' split at h
  all_goals simp_all

theorem decrypt_phase_fst (E : FkoEnv) (acc : AccStanza) (spa_pkt : SpaPktInfo)
    (enc_type : Int) :
    (decrypt_phase E acc spa_pkt enc_type).1 = 0 ∨
      (decrypt_phase E acc spa_pkt enc_type).1 = 1 := by
  unfold decrypt_phase handle_gpg_enc
  try dsimp only
  repeat' split
  all_goals simp

theorem ar_mem (E : FkoEnv) (opts : SrvOptions) (rd : Option String)
    (store : List String) (d : String)
    (hd : Ev.addReplay d ∈ (add_replay_cache E opts rd 0 store).trace) :
    opts.test = false ∧
    confIs opts.conf_enable_digest_persistence "Y" = true ∧
    d = rd.getD "" ∧
    (add_replay_cache E opts rd 0 store).trace = [Ev.addReplay d] ∧
    (add_replay_cache E opts rd 0 store).store = d :: store ∧
    (add_replay_cache E opts rd 0 store).ok = true := by
  unfold add_replay_cache at hd ⊢
  split at hd
  · try dsimp only at hd
    split at hd
    · simp at hd
    · rename_i hg hfail
      simp only [List.mem_singleton, Ev.addReplay.injEq] at hd
      subst hd
      simp only [Bool.and_eq_true, Bool.not_eq_eq_eq_not, Bool.not_true] at hg
      obtain ⟨⟨ht, _⟩, hp⟩ := hg
      have hstore : (add_replay E store (rd.getD "")).2 = rd.getD "" :: store := by
        unfold add_replay at hfail ⊢
        split at hfail
        · simp_all
        · simp [SPA_MSG_SUCCESS, SPA_MSG_DIGEST_CACHE_ERROR] at hfail
      refine ⟨by simpa using ht, hp, rfl, ?_, ?_, ?_⟩ <;>
        try simp_all
  · simp at hd

theorem ar_store (E : FkoEnv) (opts : SrvOptions) (rd : Option String)
    (a : Nat) (store : List String) :
    (add_replay_cache E opts rd a store).store = store ∨
      (add_replay_cache E opts rd a store).store = rd.getD "" :: store := by
  unfold add_replay_cache
  split
  · dsimp only
    unfold add_replay
    repeat' split
    all_goals simp
  · simp

theorem process_spa_data_addReplay (cst : Consts) (E : FkoEnv)
    (opts : SrvOptions) (acc : AccStanza) (spa_pkt : SpaPktInfo)
    (spadat : SpaData) (rd : Option String) (conf_pkt_age : Int)
    (store : List String) (d : String) (out : PsdOut)
    (hout : process_spa_data cst E opts acc spa_pkt spadat rd conf_pkt_age store = out)
    (hd : Ev.addReplay d ∈ out.trace) :
    opts.test = false ∧
    confIs opts.conf_enable_digest_persistence "Y" = true ∧
    d = rd.getD "" ∧
    out.store = d :: store ∧
    ∃ pre post, out.trace = pre ++ Ev.addReplay d :: post ∧
      (Ev.rijndaelNew FKO_SUCCESS ∈ pre ∨ Ev.gpgDecrypt FKO_SUCCESS ∈ pre) := by
  unfold process_spa_data at hout
  try dsimp only at hout
  split at hout
  · subst hout; simp at hd
  · split at hout
    · subst hout; simp at hd
    · split at hout
      · subst hout
        exact absurd (decrypt_phase_trace E _ spa_pkt _ _ hd) (by simp [isDecEv])
      · split at hout
        · subst hout
          exact absurd (decrypt_phase_trace E _ spa_pkt _ _ hd) (by simp [isDecEv])
        · rename_i hsd hce hdp hmode
          unfold psd_validate at hout
          try dsimp only at hout
          split at hout
          · subst hout
            simp only [List.mem_append] at hd
            rcases hd with hd | hd
            · exact absurd (decrypt_phase_trace E _ spa_pkt _ _ hd) (by simp [isDecEv])
            · have := (ar_mem E opts rd store d hd).2.2.2.2.2
              rename_i hok
              simp [this] at hok
          · subst hout
            simp only [List.mem_append] at hd
            rcases hd with (hd | hd) | hd
            · exact absurd (decrypt_phase_trace E _ spa_pkt _ _ hd) (by simp [isDecEv])
            · obtain ⟨ht, hp, hdd, htr, hst, _⟩ := ar_mem E opts rd store d hd
              refine ⟨ht, hp, hdd, hst, ?_⟩
              have hc := check_mode_ctx_true _ (by simpa using hmode)
              have h1 : (decrypt_phase E (check_stanza_expiration E acc).2 spa_pkt
                  (E.encType spa_pkt.packet_data)).1 = 1 := by
                rcases decrypt_phase_fst E (check_stanza_expiration E acc).2 spa_pkt
                  (E.encType spa_pkt.packet_data) with h0 | h1
                · simp [h0] at hdp
                · exact h1
              have heq : decrypt_phase E (check_stanza_expiration E acc).2 spa_pkt
                  (E.encType spa_pkt.packet_data) =
                  ((decrypt_phase E (check_stanza_expiration E acc).2 spa_pkt
                    (E.encType spa_pkt.packet_data)).1,
                   (decrypt_phase E (check_stanza_expiration E acc).2 spa_pkt
                    (E.encType spa_pkt.packet_data)).2) := rfl
              rw [h1] at heq
              refine ⟨(decrypt_phase E (check_stanza_expiration E acc).2 spa_pkt
                (E.encType spa_pkt.packet_data)).2.trace,
                (psd_post cst E opts (check_stanza_expiration E acc).2 spadat
                  ((decrypt_phase E (check_stanza_expiration E acc).2 spa_pkt
                    (E.encType spa_pkt.packet_data)).2.ctx.getD defaultCtxOut)
                  (E.encType spa_pkt.packet_data) conf_pkt_age).2.1, ?_, ?_⟩
              · rw [htr]; simp
              · exact decrypt_success_ev E _ spa_pkt _ _ heq hc.1 hc.2
            · exact absurd (psd_post_trace cst E opts _ spadat _ _ conf_pkt_age _ hd)
                (by simp [isActEv])

theorem process_spa_data_store (cst : Consts) (E : FkoEnv) (opts : SrvOptions)
    (acc : AccStanza) (spa_pkt : SpaPktInfo) (spadat : SpaData)
    (rd : Option String) (conf_pkt_age : Int) (store : List String) :
    (process_spa_data cst E opts acc spa_pkt spadat rd conf_pkt_age store).store
      = store ∨
    (process_spa_data cst E opts acc spa_pkt spadat rd conf_pkt_age store).store
      = rd.getD "" :: store := by
  unfold process_spa_data psd_validate
  try dsimp only
  repeat' split
  all_goals first
    | (left; rfl)
    | exact ar_store E opts rd 0 store

theorem spa_stanza_loop_store_mono (cst : Consts) (E : FkoEnv)
    (opts : SrvOptions) (spa_pkt : SpaPktInfo) (rd : Option String)
    (conf_pkt_age : Int) :
    ∀ (accs : List AccStanza) (spadat : SpaData) (store : List String)
      (x : String), x ∈ store →
      x ∈ (spa_stanza_loop cst E opts spa_pkt rd conf_pkt_age accs spadat store).2 := by
  intro accs
  induction accs with
  | nil =>
    intro spadat store x hx
    simpa [spa_stanza_loop] using hx
  | cons acc rest ih =>
    intro spadat store x hx
    unfold spa_stanza_loop
    dsimp only
    split
    · apply ih
      rcases process_spa_data_store cst E opts acc spa_pkt spadat rd
        conf_pkt_age store with h | h <;> simp [h, hx]
    · rcases process_spa_data_store cst E opts acc spa_pkt spadat rd
        conf_pkt_age store with h | h <;> simp [h, hx]

theorem spa_stanza_loop_addReplay (cst : Consts) (E : FkoEnv)
    (opts : SrvOptions) (spa_pkt : SpaPktInfo) (rd : Option String)
    (conf_pkt_age : Int) :
    ∀ (accs : List AccStanza) (spadat : SpaData) (store : List String)
      (d : String),
      Ev.addReplay d ∈
        (spa_stanza_loop cst E opts spa_pkt rd conf_pkt_age accs spadat store).1 →
      opts.test = false ∧
      confIs opts.conf_enable_digest_persistence "Y" = true ∧
      d = rd.getD "" ∧
      d ∈ (spa_stanza_loop cst E opts spa_pkt rd conf_pkt_age accs spadat store).2 := by
  intro accs
  induction accs with
  | nil =>
    intro spadat store d hd
    simp [spa_stanza_loop] at hd
  | cons acc rest ih =>
    intro spadat store d hd
    unfold spa_stanza_loop at hd ⊢
    dsimp only at hd ⊢
    split at hd
    · rename_i hkeep
      rw [if_pos hkeep]
      simp only [List.mem_append] at hd
      rcases hd with hd | hd
      · obtain ⟨ht, hp, hdd, hst, _⟩ := process_spa_data_addReplay cst E opts acc
          spa_pkt spadat rd conf_pkt_age store d _ rfl hd
        refine ⟨ht, hp, hdd, ?_⟩
        apply spa_stanza_loop_store_mono
        simp [hst]
      · obtain ⟨ht, hp, hdd, hst⟩ := ih _ _ _ hd
        exact ⟨ht, hp, hdd, hst⟩
    · rename_i hkeep
      rw [if_neg hkeep]
      obtain ⟨ht, hp, hdd, hst, _⟩ := process_spa_data_addReplay cst E opts acc
        spa_pkt spadat rd conf_pkt_age store d _ rfl hd
      exact ⟨ht, hp, hdd, by simp [hst]⟩

theorem replay_check_pass (E : FkoEnv) (opts : SrvOptions) (store : List String)
    (spa_pkt : SpaPktInfo) (rdg : Option String)
    (hrc : replay_check E opts store spa_pkt = (true, rdg))
    (hp : confIs opts.conf_enable_digest_persistence "Y" = true) :
    ∃ dg, rdg = some dg ∧
      get_raw_digest E spa_pkt.packet_data = (FKO_SUCCESS, some dg) ∧
      dg ∉ store := by
  unfold replay_check at hrc
  rw [hp] at hrc
  simp only [if_true] at hrc
  try dsimp only at hrc
  split at hrc
  · simp at hrc
  · rename_i hres
    split at hrc
    · simp at hrc
    · rename_i x d hsome
      split at hrc
      · simp at hrc
      · rename_i hrep
        injection hrc with h1 h2
        refine ⟨d, h2.symm, ?_, ?_⟩
        · have hr1 : (get_raw_digest E spa_pkt.packet_data).1 = FKO_SUCCESS := by
            simpa using hres
          calc get_raw_digest E spa_pkt.packet_data
              = ((get_raw_digest E spa_pkt.packet_data).1,
                 (get_raw_digest E spa_pkt.packet_data).2) := rfl
            _ = (FKO_SUCCESS, some d) := by rw [hr1, hsome]
        · intro hmem
          unfold is_replay at hrep
          simp [hmem, SPA_MSG_REPLAY, SPA_MSG_SUCCESS] at hrep

theorem replay_check_blocks (E : FkoEnv) (opts : SrvOptions)
    (store2 : List String) (spa_pkt : SpaPktInfo) (dg : String)
    (hp : confIs opts.conf_enable_digest_persistence "Y" = true)
    (hg : get_raw_digest E spa_pkt.packet_data = (FKO_SUCCESS, some dg))
    (hmem : dg ∈ store2) :
    (replay_check E opts store2 spa_pkt).1 = false := by
  unfold replay_check
  rw [hp]
  simp only [if_true, hg]
  simp [is_replay, hmem, SPA_MSG_REPLAY, SPA_MSG_SUCCESS, FKO_SUCCESS]

theorem incoming_addReplay_props (cst : Consts) (E : FkoEnv)
    (opts : SrvOptions) (store : List String) (spa_pkt : SpaPktInfo)
    (d : String) (inc : IncOut)
    (hinc : incoming_spa cst E opts store spa_pkt = inc)
    (hd : Ev.addReplay d ∈ inc.trace) :
    opts.test = false ∧
    confIs opts.conf_enable_digest_persistence "Y" = true ∧
    (precheck_pkt cst E opts spa_pkt).1 = true ∧
    ∃ rdg, replay_check E opts store (precheck_pkt cst E opts spa_pkt).2
        = (true, rdg) ∧
      d = rdg.getD "" ∧ d ∈ inc.store := by
  unfold incoming_spa at hinc
  try dsimp only at hinc
  split at hinc
  · subst hinc; simp at hd
  · rename_i hpc
    split at hinc
    · subst hinc; simp at hd
    · rename_i hrc
      have hpct : (precheck_pkt cst E opts spa_pkt).1 = true := by
        simpa using hpc
      have hrct : replay_check E opts store (precheck_pkt cst E opts spa_pkt).2
          = (true, (replay_check E opts store (precheck_pkt cst E opts spa_pkt).2).2) := by
        have h1 : (replay_check E opts store (precheck_pkt cst E opts spa_pkt).2).1 = true := by
          simpa using hrc
        calc replay_check E opts store (precheck_pkt cst E opts spa_pkt).2
            = ((replay_check E opts store (precheck_pkt cst E opts spa_pkt).2).1,
               (replay_check E opts store (precheck_pkt cst E opts spa_pkt).2).2) := rfl
          _ = _ := by rw [h1]
      split at hinc
      · split at hinc
        · subst hinc; simp at hd
        · split at hinc
          · subst hinc; simp at hd
          · subst hinc
            obtain ⟨ht, hp, hdd, hst⟩ := spa_stanza_loop_addReplay cst E opts
              (precheck_pkt cst E opts spa_pkt).2
              (replay_check E opts store (precheck_pkt cst E opts spa_pkt).2).2
              _ _ _ _ _ hd
            exact ⟨ht, hp, hpct, _, hrct, hdd, hst⟩
      · split at hinc
        · subst hinc; simp at hd
        · rename_i acc hacc
          split at hinc
          · subst hinc; simp at hd
          · rename_i age hage
            subst hinc
            obtain ⟨ht, hp, hdd, hst, _⟩ := process_spa_data_addReplay cst E opts
              acc (precheck_pkt cst E opts spa_pkt).2 _
              (replay_check E opts store (precheck_pkt cst E opts spa_pkt).2).2
              age store d _ rfl hd
            exact ⟨ht, hp, hpct, _, hrct, hdd, by simp [hst]⟩

theorem incoming_second_empty (cst : Consts) (E : FkoEnv) (opts : SrvOptions)
    (store : List String) (spa_pkt : SpaPktInfo) (d : String)
    (hd : Ev.addReplay d ∈ (incoming_spa cst E opts store spa_pkt).trace) :
    (incoming_spa cst E opts (incoming_spa cst E opts store spa_pkt).store
      spa_pkt).trace = [] := by
  obtain ⟨ht, hp, hpct, rdg, hrct, hdd, hmem⟩ :=
    incoming_addReplay_props cst E opts store spa_pkt d _ rfl hd
  obtain ⟨dg, hsome, hgrd, hnotin⟩ :=
    replay_check_pass E opts store (precheck_pkt cst E opts spa_pkt).2 rdg hrct hp
  have hddg : d = dg := by rw [hdd, hsome]; rfl
  have hblock : (replay_check E opts
      (incoming_spa cst E opts store spa_pkt).store
      (precheck_pkt cst E opts spa_pkt).2).1 = false := by
    apply replay_check_blocks E opts _ _ dg hp hgrd
    rw [← hddg]
    exact hmem
  generalize hs2 : (incoming_spa cst E opts store spa_pkt).store = store2 at hblock ⊢
  unfold incoming_spa
  try dsimp only
  rw [if_neg (by simp [hpct])]
  rw [if_pos (by simp [hblock])]

theorem hge_ces (E : FkoEnv) (acc : AccStanza) (spa_pkt : SpaPktInfo)
    (enc_type : Int) (s : DecState) :
    (handle_gpg_enc E acc spa_pkt enc_type s).2.cmd_exec_success
      = s.cmd_exec_success := by
  unfold handle_gpg_enc
  try dsimp only
  repeat' split
  all_goals rfl

theorem hge_trace_app (E : FkoEnv) (acc : AccStanza) (spa_pkt : SpaPktInfo)
    (enc_type : Int) (s : DecState) :
    ∃ tl, (handle_gpg_enc E acc spa_pkt enc_type s).2.trace = s.trace ++ tl ∧
      ∀ e ∈ tl, (∃ r, e = Ev.gpgNew r) ∨ (∃ r, e = Ev.gpgDecrypt r) := by
  suffices key : ∀ c st2, handle_gpg_enc E acc spa_pkt enc_type s = (c, st2) →
      ∃ tl, st2.trace = s.trace ++ tl ∧
        ∀ e ∈ tl, (∃ r, e = Ev.gpgNew r) ∨ (∃ r, e = Ev.gpgDecrypt r) by
    exact key _ _ rfl
  intro c st2 h
  unfold handle_gpg_enc at h
  try dsimp only at h
  repeat' split at h
  all_goals injection h with h1 h2
  all_goals subst h2
  all_goals first
    | exact ⟨[], (List.append_nil _).symm, fun e he => absurd he (List.not_mem_nil e)⟩
    | (refine ⟨[Ev.gpgNew (E.gpg (gpg_args acc spa_pkt)).newRes], rfl, ?_⟩
       intro e he
       simp only [List.mem_singleton] at he
       subst he
       exact Or.inl ⟨_, rfl⟩)
    | (refine ⟨[Ev.gpgNew (E.gpg (gpg_args acc spa_pkt)).newRes,
        Ev.gpgDecrypt (E.gpg (gpg_args acc spa_pkt)).decryptRes],
        List.append_assoc _ _ _, ?_⟩
       intro e he
       simp only [List.mem_cons, List.not_mem_nil, or_false] at he
       rcases he with he | he
       · subst he; exact Or.inl ⟨_, rfl⟩
       · subst he; exact Or.inr ⟨_, rfl⟩)

theorem ar_trace_events (E : FkoEnv) (opts : SrvOptions) (rd : Option String)
    (a : Nat) (store : List String) :
    ∀ e ∈ (add_replay_cache E opts rd a store).trace, ∃ dd, e = Ev.addReplay dd := by
  unfold add_replay_cache
  try dsimp only
  repeat' split
  all_goals intro e he
  all_goals simp only [List.mem_singleton, List.not_mem_nil] at he
  all_goals first
    | exact he.elim
    | (subst he; exact ⟨_, rfl⟩)

theorem process_eq_validate (cst : Consts) (E : FkoEnv) (opts : SrvOptions)
    (acc acc2 : AccStanza) (spa_pkt : SpaPktInfo) (spadat : SpaData)
    (rd : Option String) (conf_pkt_age : Int) (store : List String)
    (st : DecState)
    (h1 : src_dst_check acc spa_pkt = true)
    (h2 : check_stanza_expiration E acc = (true, acc2))
    (h3 : decrypt_phase E acc2 spa_pkt (E.encType spa_pkt.packet_data) = (1, st))
    (h4 : check_mode_ctx st = true) :
    process_spa_data cst E opts acc spa_pkt spadat rd conf_pkt_age store =
      psd_validate cst E opts acc2 spadat rd conf_pkt_age store st
        (E.encType spa_pkt.packet_data) := by
  unfold process_spa_data
  try dsimp only
  rw [if_neg (by simp [h1]), h2]
  dsimp only
  rw [if_neg (by simp), h3]
  dsimp only
  rw [if_neg (by simp), if_neg (by simp [h4])]

theorem validate_eq_post (cst : Consts) (E : FkoEnv) (opts : SrvOptions)
    (acc2 : AccStanza) (spadat : SpaData) (rd : Option String)
    (conf_pkt_age : Int) (store : List String) (st : DecState) (ctx : CtxOut)
    (enc_type : Int)
    (h5 : st.ctx = some ctx)
    (h6 : (add_replay_cache E opts rd 0 store).ok = true) :
    psd_validate cst E opts acc2 spadat rd conf_pkt_age store st enc_type =
      { verdict := (psd_post cst E opts acc2 spadat ctx enc_type conf_pkt_age).1,
        trace := st.trace ++ (add_replay_cache E opts rd 0 store).trace ++
          (psd_post cst E opts acc2 spadat ctx enc_type conf_pkt_age).2.1,
        acc := acc2,
        spadat := (psd_post cst E opts acc2 spadat ctx enc_type conf_pkt_age).2.2,
        store := (add_replay_cache E opts rd 0 store).store } := by
  unfold psd_validate
  try dsimp only
  rw [if_neg (by simp [h6]), h5]
  rfl

theorem process_trace_pre (cst : Consts) (E : FkoEnv) (opts : SrvOptions)
    (acc acc2 : AccStanza) (spa_pkt : SpaPktInfo) (spadat : SpaData)
    (rd : Option String) (conf_pkt_age : Int) (store : List String)
    (h1 : src_dst_check acc spa_pkt = true)
    (h2 : check_stanza_expiration E acc = (true, acc2)) :
    ∃ tl, (process_spa_data cst E opts acc spa_pkt spadat rd conf_pkt_age store).trace
        = (decrypt_phase E acc2 spa_pkt (E.encType spa_pkt.packet_data)).2.trace ++ tl ∧
      ∀ e ∈ tl, (∃ dd, e = Ev.addReplay dd) ∨ isActEv e := by
  unfold process_spa_data
  try dsimp only
  rw [if_neg (by simp [h1]), h2]
  dsimp only
  rw [if_neg (by simp)]
  split
  · exact ⟨[], (List.append_nil _).symm, fun e he => absurd he (List.not_mem_nil e)⟩
  · split
    · exact ⟨[], (List.append_nil _).symm, fun e he => absurd he (List.not_mem_nil e)⟩
    · unfold psd_validate
      try dsimp only
      split
      · refine ⟨(add_replay_cache E opts rd 0 store).trace, rfl, ?_⟩
        intro e he
        exact Or.inl (ar_trace_events E opts rd 0 store e he)
      · refine ⟨(add_replay_cache E opts rd 0 store).trace ++
          (psd_post cst E opts acc2 spadat
            ((decrypt_phase E acc2 spa_pkt (E.encType spa_pkt.packet_data)).2.ctx.getD
              defaultCtxOut)
            (E.encType spa_pkt.packet_data) conf_pkt_age).2.1,
          by rw [List.append_assoc], ?_⟩
        intro e he
        rcases List.mem_append.mp he with he | he
        · exact Or.inl (ar_trace_events E opts rd 0 store e he)
        · exact Or.inr (psd_post_trace cst E opts acc2 spadat _ _ conf_pkt_age e he)

/-- C3: for a stanza that is actually tried (source/destination and
expiration gates passed), the symmetric decryption attempt happens exactly
when the stanza has use_rijndael and the detected encryption type is
RIJNDAEL or the stanza enables command execution; success is what sets
cmd_exec_success; and when no path was attempted the stanza verdict is
KEEP_SEARCHING. -/
theorem C3_rijndael_dispatch (cst : Consts) (E : FkoEnv) (opts : SrvOptions)
    (acc acc2 : AccStanza) (spa_pkt : SpaPktInfo) (spadat : SpaData)
    (rd : Option String) (conf_pkt_age : Int) (store : List String)
    (h1 : src_dst_check acc spa_pkt = true)
    (h2 : check_stanza_expiration E acc = (true, acc2)) :
    ((acc2.use_rijndael = true ∧
      (E.encType spa_pkt.packet_data = FKO_ENCRYPTION_RIJNDAEL ∨
       acc2.enable_cmd_exec = true)) ↔
      ∃ r, Ev.rijndaelNew r ∈
        (process_spa_data cst E opts acc spa_pkt spadat rd conf_pkt_age store).trace) ∧
    ((decrypt_phase E acc2 spa_pkt (E.encType spa_pkt.packet_data)).2.cmd_exec_success = 1 ↔
      (acc2.use_rijndael = true ∧
       (E.encType spa_pkt.packet_data = FKO_ENCRYPTION_RIJNDAEL ∨
        acc2.enable_cmd_exec = true) ∧
       (E.rijndael (rij_args acc2 spa_pkt)).newRes = FKO_SUCCESS)) ∧
    ((decrypt_phase E acc2 spa_pkt (E.encType spa_pkt.packet_data)).2.attempted = 0 →
      (process_spa_data cst E opts acc spa_pkt spadat rd conf_pkt_age store).verdict
        = KEEP_SEARCHING) := by
  have hd2 : decrypt_phase E acc2 spa_pkt (E.encType spa_pkt.packet_data)
      = handle_gpg_enc E acc2 spa_pkt (E.encType spa_pkt.packet_data)
        (if acc2.use_rijndael = true then
          handle_rijndael_enc E acc2 spa_pkt (E.encType spa_pkt.packet_data)
            { res := FKO_SUCCESS, attempted := 0, cmd_exec_success := 0,
              ctx := none, trace := [] }
         else
          { res := FKO_SUCCESS, attempted := 0, cmd_exec_success := 0,
            ctx := none, trace := [] }) := rfl
  refine ⟨?_, ?_, ?_⟩
  · constructor
    · rintro ⟨hur, hg⟩
      have hgb : (E.encType spa_pkt.packet_data == FKO_ENCRYPTION_RIJNDAEL ||
          acc2.enable_cmd_exec) = true := by
        rcases hg with hg | hg <;> simp [hg]
      obtain ⟨tl2, htr2, _⟩ := process_trace_pre cst E opts acc acc2 spa_pkt
        spadat rd conf_pkt_age store h1 h2
      refine ⟨(E.rijndael (rij_args acc2 spa_pkt)).newRes, ?_⟩
      rw [htr2, hd2]
      obtain ⟨gtl, hga, _⟩ := hge_trace_app E acc2 spa_pkt
        (E.encType spa_pkt.packet_data)
        (if acc2.use_rijndael = true then
          handle_rijndael_enc E acc2 spa_pkt (E.encType spa_pkt.packet_data)
            { res := FKO_SUCCESS, attempted := 0, cmd_exec_success := 0,
              ctx := none, trace := [] }
         else
          { res := FKO_SUCCESS, attempted := 0, cmd_exec_success := 0,
            ctx := none, trace := [] })
      rw [hga, if_pos hur]
      unfold handle_rijndael_enc
      rw [if_pos hgb]
      simp
    · rintro ⟨r, hr⟩
      obtain ⟨tl2, htr2, hev2⟩ := process_trace_pre cst E opts acc acc2 spa_pkt
        spadat rd conf_pkt_age store h1 h2
      rw [htr2] at hr
      rcases List.mem_append.mp hr with hr | hr
      · rw [hd2] at hr
        obtain ⟨gtl, hga, hgev⟩ := hge_trace_app E acc2 spa_pkt
          (E.encType spa_pkt.packet_data)
          (if acc2.use_rijndael = true then
            handle_rijndael_enc E acc2 spa_pkt (E.encType spa_pkt.packet_data)
              { res := FKO_SUCCESS, attempted := 0, cmd_exec_success := 0,
                ctx := none, trace := [] }
           else
            { res := FKO_SUCCESS, attempted := 0, cmd_exec_success := 0,
              ctx := none, trace := [] })
        rw [hga] at hr
        rcases List.mem_append.mp hr with hr | hr
        · by_cases hur : acc2.use_rijndael = true
          · rw [if_pos hur] at hr
            unfold handle_rijndael_enc at hr
            by_cases hgb : (E.encType spa_pkt.packet_data == FKO_ENCRYPTION_RIJNDAEL ||
                acc2.enable_cmd_exec) = true
            · refine ⟨hur, ?_⟩
              rcases Bool.or_eq_true_iff.mp hgb with hgb | hgb
              · exact Or.inl (by simpa using hgb)
              · exact Or.inr hgb
            · rw [if_neg hgb] at hr
              simp at hr
          · rw [if_neg hur] at hr
            simp at hr
        · rcases hgev _ hr with ⟨r2, hr2⟩ | ⟨r2, hr2⟩ <;> simp at hr2
      · rcases hev2 _ hr with ⟨dd, hdd⟩ | hact
        · simp at hdd
        · rcases hact with ⟨s, hs⟩ | ⟨b, hb⟩ | ⟨t, ht⟩ <;> simp_all
  · rw [hd2, hge_ces]
    by_cases hur : acc2.use_rijndael = true
    · rw [if_pos hur]
      unfold handle_rijndael_enc
      by_cases hgb : (E.encType spa_pkt.packet_data == FKO_ENCRYPTION_RIJNDAEL ||
          acc2.enable_cmd_exec) = true
      · rw [if_pos hgb]
        by_cases hnr : (E.rijndael (rij_args acc2 spa_pkt)).newRes = FKO_SUCCESS
        · constructor
          · intro _
            refine ⟨hur, ?_, hnr⟩
            rcases Bool.or_eq_true_iff.mp hgb with hgb | hgb
            · exact Or.inl (by simpa using hgb)
            · exact Or.inr hgb
          · intro _
            simp [hnr]
        · constructor
          · intro hcontra
            simp [hnr] at hcontra
          · rintro ⟨_, _, hnr2⟩
            exact absurd hnr2 hnr
      · rw [if_neg hgb]
        constructor
        · intro hcontra
          simp at hcontra
        · rintro ⟨_, hg, _⟩
          exact absurd (by rcases hg with hg | hg <;> simp [hg]) hgb
    · rw [if_neg hur]
      constructor
      · intro hcontra
        simp at hcontra
      · rintro ⟨hur2, _⟩
        exact absurd hur2 hur
  · intro hatt
    unfold process_spa_data
    try dsimp only
    rw [if_neg (by simp [h1]), h2]
    dsimp only
    rw [if_neg (by simp)]
    have hmode : check_mode_ctx
        (decrypt_phase E acc2 spa_pkt (E.encType spa_pkt.packet_data)).2 = false := by
      unfold check_mode_ctx
      rw [if_pos (by simp [hatt])]
    split
    · rfl
    · rw [if_pos (by simp [hmode])]

/-- C3 witness: in the concrete scenario the guard holds, the rijndaelNew
event is in the trace, and cmd_exec_success is set by the successful
attempt. -/
theorem C3_rijndael_dispatch_witness :
    (∃ r, Ev.rijndaelNew r ∈
      (process_spa_data cW eW oW accW pktW initSpaData (some "DG1") 0 []).trace) ∧
    (decrypt_phase eW accW pktW (eW.encType pktW.packet_data)).2.cmd_exec_success = 1 :=
  ⟨(C3_rijndael_dispatch cW eW oW accW accW pktW initSpaData (some "DG1") 0 []
      rfl rfl).1.mp ⟨rfl, Or.inl rfl⟩,
   (C3_rijndael_dispatch cW eW oW accW accW pktW initSpaData (some "DG1") 0 []
      rfl rfl).2.1.mpr ⟨rfl, Or.inl rfl, rfl⟩⟩

theorem process_reaches_dispatch (cst : Consts) (E : FkoEnv) (opts : SrvOptions)
    (acc acc2 : AccStanza) (spa_pkt : SpaPktInfo) (spadat : SpaData)
    (rd : Option String) (conf_pkt_age : Int) (store : List String)
    (st : DecState) (ctx : CtxOut) (sd1 sd3 sd4 sd5 : SpaData) (idx : Nat)
    (h1 : src_dst_check acc spa_pkt = true)
    (h2 : check_stanza_expiration E acc = (true, acc2))
    (h3 : decrypt_phase E acc2 spa_pkt (E.encType spa_pkt.packet_data) = (1, st))
    (h4 : check_mode_ctx st = true)
    (h5 : st.ctx = some ctx)
    (h6 : (add_replay_cache E opts rd 0 store).ok = true)
    (h7 : ctx.msgTypeRes = FKO_SUCCESS)
    (hallow : (ctx.msgType != FKO_SERVICE_ACCESS_MSG &&
      ctx.msgType != FKO_CLIENT_TIMEOUT_SERVICE_ACCESS_MSG &&
      ctx.msgType != FKO_COMMAND_MSG &&
      confIs opts.conf_allow_legacy_access_requests "N") = false)
    (hsig : handle_gpg_sigs acc2 ctx (E.encType spa_pkt.packet_data) = true)
    (hgf : get_spa_data_fields ctx spadat = (FKO_SUCCESS, sd1))
    (hage : check_pkt_age E opts (set_timeout cst acc2 sd1) conf_pkt_age = true)
    (hidx : (set_timeout cst acc2 sd1).spa_message.data.findIdx?
      (fun c => c == ',') = some idx)
    (hlen : ¬(idx < cst.minIpv4StrLen - 1 ∨ cst.maxIpv4StrLen < idx))
    (hsd3 : { set_timeout cst acc2 sd1 with spa_message_src_ip := String.mk ((set_timeout cst acc2 sd1).spa_message.data.take idx) } = sd3)
    (hip : E.isValidIpv4 sd3.spa_message_src_ip = true)
    (hsd4 : { sd3 with spa_message_remain := String.mk ((sd3.spa_message.data.drop (idx + 1)).take (cst.maxDecryptedSpaLen - 1)) } = sd4)
    (hsrc : check_src_access acc2 sd4 = (true, sd5))
    (huser : (confIs opts.conf_disable_sdp_mode "Y" &&
      !check_username acc2 sd5) = false)
    (hnat : check_nat_access_types cst opts sd5 = true) :
    process_spa_data cst E opts acc spa_pkt spadat rd conf_pkt_age store =
      { verdict := (psd_dispatch cst E opts acc2 sd5 ctx.msgType).1,
        trace := st.trace ++ (add_replay_cache E opts rd 0 store).trace ++
          (psd_dispatch cst E opts acc2 sd5 ctx.msgType).2.1,
        acc := acc2,
        spadat := (psd_dispatch cst E opts acc2 sd5 ctx.msgType).2.2,
        store := (add_replay_cache E opts rd 0 store).store } := by
  rw [process_eq_validate cst E opts acc acc2 spa_pkt spadat rd conf_pkt_age
    store st h1 h2 h3 h4]
  rw [validate_eq_post cst E opts acc2 spadat rd conf_pkt_age store st ctx
    (E.encType spa_pkt.packet_data) h5 h6]
  have hpost : psd_post cst E opts acc2 spadat ctx
      (E.encType spa_pkt.packet_data) conf_pkt_age =
      psd_dispatch cst E opts acc2 sd5 ctx.msgType := by
    unfold psd_post
    rw [if_neg (by simp [h7]), if_neg (by simp [hallow])]
    unfold psd_rest
    rw [if_neg (by simp [hsig]), hgf]
    dsimp only
    subst hsd3
    dsimp only at hip hsd4
    split
    · next h => simp at h
    · split
      · next h => rw [hage] at h; simp at h
      · split
        · next heq => rw [hidx] at heq; exact Option.noConfusion heq
        · next i heq =>
          rw [hidx] at heq
          injection heq with hi
          subst hi
          split
          · next h => exact absurd h hlen
          · split
            · next h => rw [hip] at h; simp at h
            · rw [hsd4, hsrc]
              split
              · next s heq2 =>
                injection heq2 with hb hs
                exact Bool.noConfusion hb
              · next s heq2 =>
                injection heq2 with hb hs
                subst hs
                split
                · next h => rw [huser] at h; simp at h
                · split
                  · next h => rw [hnat] at h; simp at h
                  · rfl
  rw [hpost]

/-- C1: with digest persistence, the replay digest is committed to the
cache (add_replay) only after a decryption attempt for some stanza
returned success — the commit event always sits after a successful
rijndaelNew or gpgDecrypt event in the per-stanza trace — and never in
test mode; consequently, of two identical valid packets handed to
incoming_spa, the second produces no events at all, in particular no
firewall action. -/
theorem C1_replay_commit_after_success :
    (∀ (cst : Consts) (E : FkoEnv) (opts : SrvOptions) (acc : AccStanza)
      (spa_pkt : SpaPktInfo) (spadat : SpaData) (rd : Option String)
      (conf_pkt_age : Int) (store : List String) (d : String),
      Ev.addReplay d ∈
        (process_spa_data cst E opts acc spa_pkt spadat rd conf_pkt_age store).trace →
      opts.test = false ∧
      ∃ pre post,
        (process_spa_data cst E opts acc spa_pkt spadat rd conf_pkt_age store).trace
          = pre ++ Ev.addReplay d :: post ∧
        (Ev.rijndaelNew FKO_SUCCESS ∈ pre ∨ Ev.gpgDecrypt FKO_SUCCESS ∈ pre)) ∧
    (∀ (cst : Consts) (E : FkoEnv) (opts : SrvOptions) (store : List String)
      (spa_pkt : SpaPktInfo) (d : String),
      Ev.addReplay d ∈ (incoming_spa cst E opts store spa_pkt).trace →
      (incoming_spa cst E opts (incoming_spa cst E opts store spa_pkt).store
        spa_pkt).trace = [] ∧
      ∀ t, Ev.fwRequest t ∉
        (incoming_spa cst E opts (incoming_spa cst E opts store spa_pkt).store
          spa_pkt).trace) := by
  constructor
  · intro cst E opts acc spa_pkt spadat rd conf_pkt_age store d hd
    obtain ⟨ht, _, _, _, pre, post, htr, hsucc⟩ :=
      process_spa_data_addReplay cst E opts acc spa_pkt spadat rd conf_pkt_age
        store d _ rfl hd
    exact ⟨ht, pre, post, htr, hsucc⟩
  · intro cst E opts store spa_pkt d hd
    have h2 := incoming_second_empty cst E opts store spa_pkt d hd
    exact ⟨h2, by simp [h2]⟩

/-- C1 witness: in the concrete scenario the first packet commits the
digest DG1 right after the successful Rijndael attempt, and running the
identical packet against the resulting store produces no events. -/
theorem C1_replay_commit_after_success_witness :
    (oW.test = false ∧
     ∃ pre post,
       (process_spa_data cW eW oW accW { pktW with packet_data_len := 0 }
         initSpaData (some "DG1") 0 []).trace = pre ++ Ev.addReplay "DG1" :: post ∧
       (Ev.rijndaelNew FKO_SUCCESS ∈ pre ∨ Ev.gpgDecrypt FKO_SUCCESS ∈ pre)) ∧
    (incoming_spa cW eW oW (incoming_spa cW eW oW [] pktW).store pktW).trace = [] :=
  ⟨C1_replay_commit_after_success.1 cW eW oW accW
      { pktW with packet_data_len := 0 } initSpaData (some "DG1") 0 [] "DG1"
      (by decide),
   (C1_replay_commit_after_success.2 cW eW oW [] pktW "DG1" (by decide)).1⟩

/-- C2: in identity (SDP) mode, a packet whose decoded identity is zero or
absent from the policy hash table is rejected at the lookup and the
pipeline performs no decryption attempt at all — the incoming_spa trace is
empty, so in particular no fko_new_with_data call with a key (rijndaelNew
event) ever happens. -/
theorem C2_identity_gate (cst : Consts) (E : FkoEnv) (opts : SrvOptions)
    (store : List String) (spa_pkt : SpaPktInfo)
    (hmode : confIs opts.conf_disable_sdp_mode "Y" = false)
    (hid : (preprocess_spa_data cst E opts spa_pkt).2.sdp_id = 0 ∨
      opts.acc_stanza_hash_tbl
        (preprocess_spa_data cst E opts spa_pkt).2.sdp_id_str = none) :
    (incoming_spa cst E opts store spa_pkt).trace = [] ∧
    (∀ r, Ev.rijndaelNew r ∉ (incoming_spa cst E opts store spa_pkt).trace) ∧
    (∀ r, Ev.gpgNew r ∉ (incoming_spa cst E opts store spa_pkt).trace) ∧
    (∀ r, Ev.gpgDecrypt r ∉ (incoming_spa cst E opts store spa_pkt).trace) := by
  have hempty : (incoming_spa cst E opts store spa_pkt).trace = [] := by
    have hsdp : sdp_id_check E opts (precheck_pkt cst E opts spa_pkt).2 = none := by
      have hpk : (precheck_pkt cst E opts spa_pkt).2
          = (preprocess_spa_data cst E opts spa_pkt).2 := rfl
      unfold sdp_id_check
      rcases hid with hid | hid
      · rw [if_pos (by simp [hpk, hid])]
      · rw [hpk]
        split
        · rfl
        · split
          · rfl
          · exact hid
    unfold incoming_spa
    try dsimp only
    split
    · rfl
    · split
      · rfl
      · rw [if_neg (by simp [hmode]), hsdp]
  refine ⟨hempty, ?_, ?_, ?_⟩ <;> simp [hempty]

/-- C2 witness: an SDP-mode configuration with an empty policy hash; the
packet decodes to identity 77, the lookup misses, and the trace is empty. -/
theorem C2_identity_gate_witness :
    (incoming_spa cW eW
      { oW with conf_disable_sdp_mode := "N", acc_stanza_hash_tbl := fun _ => none }
      [] pktW).trace = [] :=
  (C2_identity_gate cW eW
    { oW with conf_disable_sdp_mode := "N", acc_stanza_hash_tbl := fun _ => none }
    [] pktW (by decide) (Or.inr rfl)).1


/-- C4: once the message type has been read successfully, a payload whose
type is none of SERVICE_ACCESS, CLIENT_TIMEOUT_SERVICE_ACCESS or COMMAND is
rejected with verdict STOP_SEARCHING (and no further events) exactly when
ALLOW_LEGACY_ACCESS_REQUESTS is N; when legacy access is allowed the
type gate is passed and processing continues with the validation chain. -/
theorem C4_legacy_type_gate (cst : Consts) (E : FkoEnv) (opts : SrvOptions)
    (acc : AccStanza) (spadat : SpaData) (ctx : CtxOut) (enc_type : Int)
    (conf_pkt_age : Int)
    (h7 : ctx.msgTypeRes = FKO_SUCCESS)
    (hty : ctx.msgType ≠ FKO_SERVICE_ACCESS_MSG ∧
      ctx.msgType ≠ FKO_CLIENT_TIMEOUT_SERVICE_ACCESS_MSG ∧
      ctx.msgType ≠ FKO_COMMAND_MSG) :
    (confIs opts.conf_allow_legacy_access_requests "N" = true →
      psd_post cst E opts acc spadat ctx enc_type conf_pkt_age =
        (STOP_SEARCHING, [], spadat)) ∧
    (confIs opts.conf_allow_legacy_access_requests "N" = false →
      psd_post cst E opts acc spadat ctx enc_type conf_pkt_age =
        psd_rest cst E opts acc spadat ctx.msgType ctx enc_type
          conf_pkt_age) := by
  obtain ⟨t1, t2, t3⟩ := hty
  constructor
  · intro hN
    have hc : (ctx.msgType != FKO_SERVICE_ACCESS_MSG &&
        ctx.msgType != FKO_CLIENT_TIMEOUT_SERVICE_ACCESS_MSG &&
        ctx.msgType != FKO_COMMAND_MSG &&
        confIs opts.conf_allow_legacy_access_requests "N") = true := by
      simp [bne_iff_ne, t1, t2, t3, hN]
    unfold psd_post
    rw [if_neg (by simp [h7]), if_pos hc]
  · intro hN
    have hc : ¬((ctx.msgType != FKO_SERVICE_ACCESS_MSG &&
        ctx.msgType != FKO_CLIENT_TIMEOUT_SERVICE_ACCESS_MSG &&
        ctx.msgType != FKO_COMMAND_MSG &&
        confIs opts.conf_allow_legacy_access_requests "N") = true) := by
      simp [hN]
    unfold psd_post
    rw [if_neg (by simp [h7]), if_neg hc]

/-- C4 witness: a plain ACCESS-typed payload is stopped under the scenario
options (legacy denied) and passes the type gate once legacy access is
allowed. -/
theorem C4_legacy_type_gate_witness :
    (psd_post cW eW oW accW initSpaData ctxW4 FKO_ENCRYPTION_RIJNDAEL 120 =
      (STOP_SEARCHING, [], initSpaData)) ∧
    (psd_post cW eW oW4 accW initSpaData ctxW4 FKO_ENCRYPTION_RIJNDAEL 120 =
      psd_rest cW eW oW4 accW initSpaData ctxW4.msgType ctxW4
        FKO_ENCRYPTION_RIJNDAEL 120) :=
  ⟨(C4_legacy_type_gate cW eW oW accW initSpaData ctxW4
      FKO_ENCRYPTION_RIJNDAEL 120 rfl (by decide)).1 (by decide),
   (C4_legacy_type_gate cW eW oW4 accW initSpaData ctxW4
      FKO_ENCRYPTION_RIJNDAEL 120 rfl (by decide)).2 (by decide)⟩


/-- C5: in the scope-policy stage, a service-access variant denied by the
service ACL gets verdict STOP_SEARCHING, while a non-service access
message denied by the port/protocol ACL gets KEEP_SEARCHING, so the
stanza search continues; the stage is what dispatch runs for every
non-command message when no command cycle is configured. -/
theorem C5_scope_policy (cst : Consts) (E : FkoEnv) (opts : SrvOptions)
    (acc : AccStanza) (spadat : SpaData) (msg_type : Int) :
    ((msg_type = FKO_SERVICE_ACCESS_MSG ∨
        msg_type = FKO_CLIENT_TIMEOUT_SERVICE_ACCESS_MSG) →
      check_service_access acc spadat = false →
      (psd_scope E opts acc spadat msg_type).1 = STOP_SEARCHING) ∧
    ((msg_type ≠ FKO_SERVICE_ACCESS_MSG ∧
        msg_type ≠ FKO_CLIENT_TIMEOUT_SERVICE_ACCESS_MSG) →
      check_port_proto acc spadat = false →
      (psd_scope E opts acc spadat msg_type).1 = KEEP_SEARCHING) ∧
    (acc.cmd_cycle_open = none → spadat.message_type ≠ FKO_COMMAND_MSG →
      psd_dispatch cst E opts acc spadat msg_type =
        psd_scope E opts acc spadat msg_type) := by
  refine ⟨?_, ?_, ?_⟩
  · intro hsvc hdeny
    rcases hsvc with h | h <;>
      simp [psd_scope, h, hdeny, FKO_SERVICE_ACCESS_MSG,
        FKO_CLIENT_TIMEOUT_SERVICE_ACCESS_MSG]
  · intro hns hdeny
    simp [psd_scope, hns.1, hns.2, hdeny]
  · intro hcc hnc
    have hc : ¬((spadat.message_type == FKO_COMMAND_MSG) = true) := by
      simp [hnc]
    unfold psd_dispatch
    rw [hcc]
    dsimp only
    rw [if_neg hc]

/-- C5 witness: concrete denials under the scenario, for both ACLs, and
the dispatch connection for the service-typed scenario payload. -/
theorem C5_scope_policy_witness :
    ((psd_scope eW oW accW5s sdW5 FKO_SERVICE_ACCESS_MSG).1 =
      STOP_SEARCHING) ∧
    ((psd_scope eW oW accW5p sdW5 FKO_ACCESS_MSG).1 = KEEP_SEARCHING) ∧
    (psd_dispatch cW eW oW accW5p sdW5 FKO_ACCESS_MSG =
      psd_scope eW oW accW5p sdW5 FKO_ACCESS_MSG) :=
  ⟨(C5_scope_policy cW eW oW accW5s sdW5 FKO_SERVICE_ACCESS_MSG).1
      (Or.inl rfl) rfl,
   (C5_scope_policy cW eW oW accW5p sdW5 FKO_ACCESS_MSG).2.1
      (by decide) rfl,
   (C5_scope_policy cW eW oW accW5p sdW5 FKO_ACCESS_MSG).2.2
      rfl (by decide)⟩


theorem psd_dispatch_test_keep (cst : Consts) (E : FkoEnv) (opts : SrvOptions)
    (acc : AccStanza) (spadat : SpaData) (msg_type : Int)
    (htest : opts.test = true) (hcc : acc.cmd_cycle_open = none)
    (hdone :
      spadat.message_type = FKO_COMMAND_MSG ∨
      ((msg_type = FKO_SERVICE_ACCESS_MSG ∨
          msg_type = FKO_CLIENT_TIMEOUT_SERVICE_ACCESS_MSG) ∧
        spadat.message_type ≠ FKO_COMMAND_MSG ∧
        check_service_access acc spadat = true ∧
        (gather_service_information E spadat).1 = true) ∨
      (msg_type ≠ FKO_SERVICE_ACCESS_MSG ∧
        msg_type ≠ FKO_CLIENT_TIMEOUT_SERVICE_ACCESS_MSG ∧
        spadat.message_type ≠ FKO_COMMAND_MSG ∧
        check_port_proto acc spadat = true)) :
    (psd_dispatch cst E opts acc spadat msg_type).1 = KEEP_SEARCHING ∧
    (psd_dispatch cst E opts acc spadat msg_type).2.1 = [] := by
  unfold psd_dispatch
  rw [hcc]
  dsimp only
  rcases hdone with ha | hb | hc
  · have hcmd : (spadat.message_type == FKO_COMMAND_MSG) = true := by
      simp [ha]
    have hr : process_cmd_msg cst E opts acc spadat = (0, FKO_SUCCESS, []) := by
      unfold process_cmd_msg
      by_cases he : (!acc.enable_cmd_exec) = true
      · rw [if_pos he]
      · rw [if_neg he, if_pos htest]
    rw [if_pos hcmd]
    rw [hr]
    simp
  · obtain ⟨hsvc, hnc, hacl, hgsi⟩ := hb
    have hcmd : ¬((spadat.message_type == FKO_COMMAND_MSG) = true) := by
      simp [hnc]
    have hms : (msg_type == FKO_SERVICE_ACCESS_MSG ||
        msg_type == FKO_CLIENT_TIMEOUT_SERVICE_ACCESS_MSG) = true := by
      rcases hsvc with h | h <;> simp [h]
    have hsa : ¬((!check_service_access acc spadat) = true) := by
      simp [hacl]
    rw [if_neg hcmd]
    unfold psd_scope
    rw [if_pos hms, if_neg hsa]
    split
    · next s heq =>
      have := congrArg Prod.fst heq
      dsimp only at this
      rw [hgsi] at this
      exact Bool.noConfusion this
    · next s heq =>
      have hf : psd_finish E opts acc s = (KEEP_SEARCHING, []) := by
        unfold psd_finish
        rw [if_pos htest]
      dsimp only
      rw [hf]
      exact ⟨rfl, rfl⟩
  · obtain ⟨hn1, hn2, hnc, hacl⟩ := hc
    have hcmd : ¬((spadat.message_type == FKO_COMMAND_MSG) = true) := by
      simp [hnc]
    have hms : ¬((msg_type == FKO_SERVICE_ACCESS_MSG ||
        msg_type == FKO_CLIENT_TIMEOUT_SERVICE_ACCESS_MSG) = true) := by
      simp [hn1, hn2]
    have hpp : ¬((!check_port_proto acc spadat) = true) := by
      simp [hacl]
    rw [if_neg hcmd]
    unfold psd_scope
    rw [if_neg hms, if_neg hpp]
    have hf : psd_finish E opts acc spadat = (KEEP_SEARCHING, []) := by
      unfold psd_finish
      rw [if_pos htest]
    dsimp only
    rw [hf]
    exact ⟨rfl, rfl⟩

/-- C9: in test mode, a stanza with no command cycle whose packet passes
every validation check — a command message, a service-access message whose
service ACL and service lookup succeed, or a non-service access message
whose port ACL succeeds — ends with verdict KEEP_SEARCHING, and neither a
command execution nor a firewall request is ever recorded, so the classic
stanza loop keeps trying the remaining stanzas. -/
theorem C9_test_mode_keeps_searching (cst : Consts) (E : FkoEnv)
    (opts : SrvOptions) (acc acc2 : AccStanza) (spa_pkt : SpaPktInfo)
    (spadat : SpaData) (rd : Option String) (conf_pkt_age : Int)
    (store : List String) (st : DecState) (ctx : CtxOut)
    (sd1 sd3 sd4 sd5 : SpaData) (idx : Nat)
    (h1 : src_dst_check acc spa_pkt = true)
    (h2 : check_stanza_expiration E acc = (true, acc2))
    (h3 : decrypt_phase E acc2 spa_pkt (E.encType spa_pkt.packet_data) = (1, st))
    (h4 : check_mode_ctx st = true)
    (h5 : st.ctx = some ctx)
    (h6 : (add_replay_cache E opts rd 0 store).ok = true)
    (h7 : ctx.msgTypeRes = FKO_SUCCESS)
    (hallow : (ctx.msgType != FKO_SERVICE_ACCESS_MSG &&
      ctx.msgType != FKO_CLIENT_TIMEOUT_SERVICE_ACCESS_MSG &&
      ctx.msgType != FKO_COMMAND_MSG &&
      confIs opts.conf_allow_legacy_access_requests "N") = false)
    (hsig : handle_gpg_sigs acc2 ctx (E.encType spa_pkt.packet_data) = true)
    (hgf : get_spa_data_fields ctx spadat = (FKO_SUCCESS, sd1))
    (hage : check_pkt_age E opts (set_timeout cst acc2 sd1) conf_pkt_age = true)
    (hidx : (set_timeout cst acc2 sd1).spa_message.data.findIdx?
      (fun c => c == ',') = some idx)
    (hlen : ¬(idx < cst.minIpv4StrLen - 1 ∨ cst.maxIpv4StrLen < idx))
    (hsd3 : { set_timeout cst acc2 sd1 with spa_message_src_ip := String.mk ((set_timeout cst acc2 sd1).spa_message.data.take idx) } = sd3)
    (hip : E.isValidIpv4 sd3.spa_message_src_ip = true)
    (hsd4 : { sd3 with spa_message_remain := String.mk ((sd3.spa_message.data.drop (idx + 1)).take (cst.maxDecryptedSpaLen - 1)) } = sd4)
    (hsrc : check_src_access acc2 sd4 = (true, sd5))
    (huser : (confIs opts.conf_disable_sdp_mode "Y" &&
      !check_username acc2 sd5) = false)
    (hnat : check_nat_access_types cst opts sd5 = true)
    (htest : opts.test = true)
    (hcc : acc2.cmd_cycle_open = none)
    (hdone :
      sd5.message_type = FKO_COMMAND_MSG ∨
      ((ctx.msgType = FKO_SERVICE_ACCESS_MSG ∨
          ctx.msgType = FKO_CLIENT_TIMEOUT_SERVICE_ACCESS_MSG) ∧
        sd5.message_type ≠ FKO_COMMAND_MSG ∧
        check_service_access acc2 sd5 = true ∧
        (gather_service_information E sd5).1 = true) ∨
      (ctx.msgType ≠ FKO_SERVICE_ACCESS_MSG ∧
        ctx.msgType ≠ FKO_CLIENT_TIMEOUT_SERVICE_ACCESS_MSG ∧
        sd5.message_type ≠ FKO_COMMAND_MSG ∧
        check_port_proto acc2 sd5 = true)) :
    (process_spa_data cst E opts acc spa_pkt spadat rd conf_pkt_age
      store).verdict = KEEP_SEARCHING ∧
    (∀ s, Ev.cmdExec s ∉
      (process_spa_data cst E opts acc spa_pkt spadat rd conf_pkt_age
        store).trace) ∧
    (∀ t, Ev.fwRequest t ∉
      (process_spa_data cst E opts acc spa_pkt spadat rd conf_pkt_age
        store).trace) := by
  rw [process_reaches_dispatch cst E opts acc acc2 spa_pkt spadat rd
    conf_pkt_age store st ctx sd1 sd3 sd4 sd5 idx h1 h2 h3 h4 h5 h6 h7
    hallow hsig hgf hage hidx hlen hsd3 hip hsd4 hsrc huser hnat]
  have hd := psd_dispatch_test_keep cst E opts acc2 sd5 ctx.msgType htest
    hcc hdone
  have hdec := decrypt_phase_trace E acc2 spa_pkt (E.encType spa_pkt.packet_data)
  rw [h3] at hdec
  dsimp only at hdec
  have har := ar_trace_events E opts rd 0 store
  refine ⟨hd.1, ?_, ?_⟩
  · intro s hmem
    dsimp only at hmem
    rw [hd.2] at hmem
    simp only [List.append_nil, List.mem_append] at hmem
    rcases hmem with hmem | hmem
    · have := hdec _ hmem
      simp [isDecEv] at this
    · obtain ⟨dd, hdd⟩ := har _ hmem
      exact Ev.noConfusion hdd
  · intro t hmem
    dsimp only at hmem
    rw [hd.2] at hmem
    simp only [List.append_nil, List.mem_append] at hmem
    rcases hmem with hmem | hmem
    · have := hdec _ hmem
      simp [isDecEv] at this
    · obtain ⟨dd, hdd⟩ := har _ hmem
      exact Ev.noConfusion hdd

/-- C9 witness: the scenario packet in test mode reaches dispatch for the
scenario stanza and the verdict is KEEP_SEARCHING with no command or
firewall event. -/
theorem C9_test_mode_keeps_searching_witness :
    (process_spa_data cW eW oW9 accW pktW initSpaData (some "DG1") 120
      []).verdict = KEEP_SEARCHING ∧
    (∀ s, Ev.cmdExec s ∉
      (process_spa_data cW eW oW9 accW pktW initSpaData (some "DG1") 120
        []).trace) ∧
    (∀ t, Ev.fwRequest t ∉
      (process_spa_data cW eW oW9 accW pktW initSpaData (some "DG1") 120
        []).trace) :=
  C9_test_mode_keeps_searching cW eW oW9 accW accW pktW initSpaData
    (some "DG1") 120 [] stW9 ctxW sdW9a sdW9c sdW9d sdW9e 7
    (by decide) rfl rfl (by decide) rfl (by decide) rfl (by decide)
    (by decide) rfl (by decide) (by decide) (by decide) rfl rfl rfl rfl
    (by decide) (by decide) rfl rfl
    (Or.inr (Or.inl ⟨Or.inl rfl, by decide, rfl, rfl⟩))


theorem process_cmd_msg_fw (cst : Consts) (E : FkoEnv) (opts : SrvOptions)
    (acc : AccStanza) (spadat : SpaData) :
    ∀ t, Ev.fwRequest t ∉ (process_cmd_msg cst E opts acc spadat).2.2 := by
  suffices key : ∀ a b tl, process_cmd_msg cst E opts acc spadat = (a, b, tl) →
      ∀ t, Ev.fwRequest t ∉ tl by
    exact fun t => key _ _ _ rfl t
  intro a b tl h
  unfold process_cmd_msg at h
  repeat' split at h
  all_goals try dsimp only at h
  all_goals injection h with h1 h2
  all_goals injection h2 with h2 h3
  all_goals subst h3
  all_goals intro t ht
  all_goals simp only [List.mem_singleton, List.not_mem_nil] at ht
  all_goals first
    | exact ht
    | exact Ev.noConfusion ht

theorem psd_finish_fw (E : FkoEnv) (opts : SrvOptions) (acc : AccStanza)
    (spadat : SpaData) :
    ∀ t, Ev.fwRequest t ∈ (psd_finish E opts acc spadat).2 →
      t = spadat.fw_access_timeout := by
  suffices key : ∀ v tl, psd_finish E opts acc spadat = (v, tl) →
      ∀ t, Ev.fwRequest t ∈ tl → t = spadat.fw_access_timeout by
    exact key _ _ rfl
  intro v tl h
  unfold psd_finish at h
  repeat' split at h
  all_goals try dsimp only at h
  all_goals injection h with h1 h2
  all_goals subst h2
  all_goals intro t ht
  all_goals simp only [List.mem_singleton, List.not_mem_nil] at ht
  all_goals first
    | exact ht.elim
    | exact Ev.noConfusion ht
    | (injection ht with h3; exact h3)
    | injection ht with h3

theorem gather_preserves_fw (E : FkoEnv) (spadat : SpaData) (b : Bool)
    (sd : SpaData) (h : gather_service_information E spadat = (b, sd)) :
    sd.fw_access_timeout = spadat.fw_access_timeout := by
  unfold gather_service_information at h
  split at h
  all_goals injection h with h1 h2
  all_goals subst h2
  all_goals rfl

theorem csa_preserves_fw (acc : AccStanza) (spadat : SpaData) (b : Bool)
    (sd : SpaData) (h : check_src_access acc spadat = (b, sd)) :
    sd.fw_access_timeout = spadat.fw_access_timeout := by
  unfold check_src_access at h
  repeat' split at h
  all_goals injection h with h1 h2
  all_goals subst h2
  all_goals rfl

theorem psd_scope_fw (E : FkoEnv) (opts : SrvOptions) (acc : AccStanza)
    (spadat : SpaData) (msg_type : Int) :
    ∀ t, Ev.fwRequest t ∈ (psd_scope E opts acc spadat msg_type).2.1 →
      t = spadat.fw_access_timeout := by
  suffices key : ∀ v tl sd, psd_scope E opts acc spadat msg_type = (v, tl, sd) →
      ∀ t, Ev.fwRequest t ∈ tl → t = spadat.fw_access_timeout by
    exact key _ _ _ rfl
  intro v tl sd h
  unfold psd_scope at h
  split at h
  · split at h
    · injection h with h1 h2
      injection h2 with h2 h3
      subst h2
      intro t ht
      exact absurd ht (List.not_mem_nil _)
    · split at h
      · next s heq =>
        injection h with h1 h2
        injection h2 with h2 h3
        subst h2
        intro t ht
        exact absurd ht (List.not_mem_nil _)
      · next s heq =>
        dsimp only at h
        injection h with h1 h2
        injection h2 with h2 h3
        subst h2
        intro t ht
        have h4 := psd_finish_fw E opts acc s t ht
        rw [h4, gather_preserves_fw E spadat true s heq]
  · split at h
    · injection h with h1 h2
      injection h2 with h2 h3
      subst h2
      intro t ht
      exact absurd ht (List.not_mem_nil _)
    · dsimp only at h
      injection h with h1 h2
      injection h2 with h2 h3
      subst h2
      intro t ht
      exact psd_finish_fw E opts acc spadat t ht

theorem psd_dispatch_fw (cst : Consts) (E : FkoEnv) (opts : SrvOptions)
    (acc : AccStanza) (spadat : SpaData) (msg_type : Int) :
    ∀ t, Ev.fwRequest t ∈ (psd_dispatch cst E opts acc spadat msg_type).2.1 →
      t = spadat.fw_access_timeout := by
  suffices key : ∀ v tl sd,
      psd_dispatch cst E opts acc spadat msg_type = (v, tl, sd) →
        ∀ t, Ev.fwRequest t ∈ tl → t = spadat.fw_access_timeout by
    exact key _ _ _ rfl
  intro v tl sd h
  unfold psd_dispatch at h
  try dsimp only at h
  split at h
  · split at h
    all_goals injection h with h1 h2
    all_goals injection h2 with h2 h3
    all_goals subst h2
    all_goals intro t ht
    all_goals simp only [List.mem_singleton] at ht
    all_goals exact Ev.noConfusion ht
  · split at h
    · split at h
      all_goals injection h with h1 h2
      all_goals injection h2 with h2 h3
      all_goals subst h2
      all_goals intro t ht
      all_goals exact absurd ht (process_cmd_msg_fw cst E opts acc spadat t)
    · have hQ := congrArg (fun p => Prod.fst (Prod.snd p)) h
      dsimp only at hQ
      exact hQ ▸ psd_scope_fw E opts acc spadat msg_type

/-- C8: whenever a firewall access request is issued for an accepted
packet, its timeout is the payload client_timeout when positive, else the
stanza fw_access_timeout when positive, else the built-in default
DEF_FW_ACCESS_TIMEOUT. -/
theorem C8_effective_timeout (cst : Consts) (E : FkoEnv)
    (opts : SrvOptions) (acc acc2 : AccStanza) (spa_pkt : SpaPktInfo)
    (spadat : SpaData) (rd : Option String) (conf_pkt_age : Int)
    (store : List String) (st : DecState) (ctx : CtxOut)
    (sd1 sd3 sd4 sd5 : SpaData) (idx : Nat)
    (h1 : src_dst_check acc spa_pkt = true)
    (h2 : check_stanza_expiration E acc = (true, acc2))
    (h3 : decrypt_phase E acc2 spa_pkt (E.encType spa_pkt.packet_data) = (1, st))
    (h4 : check_mode_ctx st = true)
    (h5 : st.ctx = some ctx)
    (h6 : (add_replay_cache E opts rd 0 store).ok = true)
    (h7 : ctx.msgTypeRes = FKO_SUCCESS)
    (hallow : (ctx.msgType != FKO_SERVICE_ACCESS_MSG &&
      ctx.msgType != FKO_CLIENT_TIMEOUT_SERVICE_ACCESS_MSG &&
      ctx.msgType != FKO_COMMAND_MSG &&
      confIs opts.conf_allow_legacy_access_requests "N") = false)
    (hsig : handle_gpg_sigs acc2 ctx (E.encType spa_pkt.packet_data) = true)
    (hgf : get_spa_data_fields ctx spadat = (FKO_SUCCESS, sd1))
    (hage : check_pkt_age E opts (set_timeout cst acc2 sd1) conf_pkt_age = true)
    (hidx : (set_timeout cst acc2 sd1).spa_message.data.findIdx?
      (fun c => c == ',') = some idx)
    (hlen : ¬(idx < cst.minIpv4StrLen - 1 ∨ cst.maxIpv4StrLen < idx))
    (hsd3 : { set_timeout cst acc2 sd1 with spa_message_src_ip := String.mk ((set_timeout cst acc2 sd1).spa_message.data.take idx) } = sd3)
    (hip : E.isValidIpv4 sd3.spa_message_src_ip = true)
    (hsd4 : { sd3 with spa_message_remain := String.mk ((sd3.spa_message.data.drop (idx + 1)).take (cst.maxDecryptedSpaLen - 1)) } = sd4)
    (hsrc : check_src_access acc2 sd4 = (true, sd5))
    (huser : (confIs opts.conf_disable_sdp_mode "Y" &&
      !check_username acc2 sd5) = false)
    (hnat : check_nat_access_types cst opts sd5 = true) :
    ∀ t, Ev.fwRequest t ∈
      (process_spa_data cst E opts acc spa_pkt spadat rd conf_pkt_age
        store).trace →
      t = (if 0 < ctx.fields.client_timeout then ctx.fields.client_timeout
        else if 0 < acc2.fw_access_timeout then acc2.fw_access_timeout
        else cst.defFwAccessTimeout) := by
  rw [process_reaches_dispatch cst E opts acc acc2 spa_pkt spadat rd
    conf_pkt_age store st ctx sd1 sd3 sd4 sd5 idx h1 h2 h3 h4 h5 h6 h7
    hallow hsig hgf hage hidx hlen hsd3 hip hsd4 hsrc huser hnat]
  intro t ht
  dsimp only at ht
  simp only [List.mem_append] at ht
  have hdec := decrypt_phase_trace E acc2 spa_pkt (E.encType spa_pkt.packet_data)
  rw [h3] at hdec
  dsimp only at hdec
  rcases ht with (ht | ht) | ht
  · have h8 := hdec _ ht
    simp [isDecEv] at h8
  · obtain ⟨dd, hdd⟩ := ar_trace_events E opts rd 0 store _ ht
    exact Ev.noConfusion hdd
  · have hcl : sd1.client_timeout = ctx.fields.client_timeout := by
      unfold get_spa_data_fields at hgf
      split at hgf
      · injection hgf with g1 g2
        subst g2
        rfl
      · next hcond =>
        injection hgf with g1 g2
        exact absurd (by simp [g1]) hcond
    have hfw5 := csa_preserves_fw acc2 sd4 true sd5 hsrc
    have hfw4 : sd4.fw_access_timeout = sd3.fw_access_timeout := by
      rw [← hsd4]
    have hfw3 : sd3.fw_access_timeout =
        (set_timeout cst acc2 sd1).fw_access_timeout := by
      rw [← hsd3]
    have hst : (set_timeout cst acc2 sd1).fw_access_timeout =
        (if 0 < sd1.client_timeout then sd1.client_timeout
          else if 0 < acc2.fw_access_timeout then acc2.fw_access_timeout
          else cst.defFwAccessTimeout) := by
      unfold set_timeout
      by_cases hc1 : 0 < sd1.client_timeout
      · rw [if_pos hc1, if_pos hc1]
      · rw [if_neg hc1, if_neg hc1]
        by_cases hc2 : 0 < acc2.fw_access_timeout
        · rw [if_pos hc2, if_pos hc2]
        · rw [if_neg hc2, if_neg hc2]
    have h9 := psd_dispatch_fw cst E opts acc2 sd5 ctx.msgType t ht
    rw [h9, hfw5, hfw4, hfw3, hst, hcl]

/-- C8 witness: the scenario firewall request carries timeout 30, the
payload client_timeout, which is positive and therefore selected. -/
theorem C8_effective_timeout_witness :
    Ev.fwRequest 30 ∈
      (process_spa_data cW eW oW accW pktW initSpaData (some "DG1") 120
        []).trace ∧
    30 = (if 0 < ctxW.fields.client_timeout then ctxW.fields.client_timeout
      else if 0 < accW.fw_access_timeout then accW.fw_access_timeout
      else cW.defFwAccessTimeout) :=
  ⟨by decide,
   C8_effective_timeout cW eW oW accW accW pktW initSpaData
    (some "DG1") 120 [] stW9 ctxW sdW9a sdW9c sdW9d sdW9e 7
    (by decide) rfl rfl (by decide) rfl (by decide) rfl (by decide)
    (by decide) rfl (by decide) (by decide) (by decide) rfl rfl rfl rfl
    (by decide) (by decide) 30 (by decide)⟩


theorem ptail_len (cst : Consts) (E : FkoEnv) (opts : SrvOptions)
    (p : SpaPktInfo) (n : Nat) :
    (preprocess_tail cst E opts p n).2.packet_data_len =
      p.packet_data_len := by
  suffices key : ∀ r q, preprocess_tail cst E opts p n = (r, q) →
      q.packet_data_len = p.packet_data_len by
    exact key _ _ rfl
  intro r q h
  unfold preprocess_tail at h
  try dsimp only at h
  repeat' split at h
  all_goals try dsimp only at h
  all_goals repeat' split at h
  all_goals injection h with h1 h2
  all_goals subst h2
  all_goals rfl

/-- C6: the source tests cmd_exec_group but appends cmd_sudo_exec_group
(incoming_spa.c line 547), so with a sudo group configured and no plain
exec group, the executed sudo command omits the -g clause the spec
prescribes; the two command strings diverge on this input. -/
theorem C6_sudo_group_clause :
    build_sudo_cmd cW oW accW6 sdW6 = "/usr/bin/sudo touch /tmp/x" ∧
    spec_sudo_cmd oW.conf_sudo_exe accW6.cmd_sudo_exec_user
      accW6.cmd_sudo_exec_group sdW6.spa_message_remain =
      "/usr/bin/sudo -g admin touch /tmp/x" ∧
    build_sudo_cmd cW oW accW6 sdW6 ≠
      spec_sudo_cmd oW.conf_sudo_exe accW6.cmd_sudo_exec_user
        accW6.cmd_sudo_exec_group sdW6.spa_message_remain :=
  ⟨by decide, by decide, by decide⟩

/-- C7 counterexample: an accepted HTTP-wrapped packet leaves the slot
length field at the unwrapped length 85, not 0, after preprocess_spa_data
returns. -/
theorem C7_packet_len_counterexample :
    (preprocess_spa_data cW eW oW7 pktW7).2.packet_data_len = 85 ∧
    (85 : Nat) ≠ 0 :=
  ⟨by decide, by decide⟩

/-- C7 (amended): preprocess_spa_data leaves the slot length field at 0 on
every path except a successful HTTP unwrap, where it re-sets the field to
the unwrapped SPA length, which is at least MIN_SPA_DATA_SIZE (and HTTP
unwrapping only happens when SPA over HTTP is enabled). -/
theorem C7_packet_len_zeroed (cst : Consts) (E : FkoEnv)
    (opts : SrvOptions) (spa_pkt : SpaPktInfo) :
    (preprocess_spa_data cst E opts spa_pkt).2.packet_data_len = 0 ∨
    (confIs opts.conf_enable_spa_over_http "Y" = true ∧
      cst.minSpaDataSize ≤
        (preprocess_spa_data cst E opts spa_pkt).2.packet_data_len) := by
  suffices key : ∀ r q, preprocess_spa_data cst E opts spa_pkt = (r, q) →
      q.packet_data_len = 0 ∨
      (confIs opts.conf_enable_spa_over_http "Y" = true ∧
        cst.minSpaDataSize ≤ q.packet_data_len) by
    exact key _ _ rfl
  intro r q h
  unfold preprocess_spa_data at h
  try dsimp only at h
  repeat' split at h
  all_goals first
    | (injection h with h1 h2
       subst h2
       exact Or.inl rfl)
    | skip
  · next hhttp hlt =>
    have hq := congrArg Prod.snd h
    dsimp only at hq
    rw [← hq, ptail_len]
    refine Or.inr ⟨?_, ?_⟩
    · simp only [Bool.and_eq_true] at hhttp
      exact hhttp.1.1
    · exact Nat.le_of_not_lt hlt
  · have hq := congrArg Prod.snd h
    dsimp only at hq
    rw [← hq, ptail_len]
    exact Or.inl rfl

/-- C10 counterexample: a two-byte datagram starting with a NUL byte is
accepted, but the slot byte at index pkt_len is a stale character from the
previous packet, not the NUL terminator the claim asserts. -/
theorem C10_udp_slot_counterexample :
    ((run_udp_server_step cW pktW10 (some [nulC, 'a']) 1 2 3 4).map
      (fun s => (s.packet_data_len, s.packet_data[2]?))) =
        some (2, some 'Y') ∧
    some 'Y' ≠ some nulC :=
  ⟨by decide, by decide⟩

/-- C10 (amended): the UDP server hands the slot to incoming_spa exactly
when the datagram length satisfies 0 < pkt_len ≤ MAX_SPA_PACKET_LEN, and
then the slot has packet_data_len = pkt_len and sdp_id reset to 0; the
copied bytes are the datagram up to its first NUL (capped at pkt_len)
followed by a NUL terminator, so the slot is NUL-terminated at pkt_len
only when the datagram itself carries no NUL byte. -/
theorem C10_udp_slot_invariants (cst : Consts) (slot : SpaPktInfo)
    (recv : Option (List Char)) (a b c d : Nat) :
    (∀ slot2, run_udp_server_step cst slot recv a b c d = some slot2 →
      ∃ bytes, recv = some bytes ∧ 0 < bytes.length ∧
        bytes.length ≤ cst.maxSpaPacketLen ∧
        slot2.packet_data_len = bytes.length ∧
        slot2.sdp_id = 0 ∧
        (slot2.packet_data.take
            ((bytes.takeWhile (fun ch => ch != nulC)).take
              bytes.length).length =
          (bytes.takeWhile (fun ch => ch != nulC)).take bytes.length) ∧
        (slot2.packet_data[((bytes.takeWhile (fun ch => ch != nulC)).take
            bytes.length).length]? = some nulC) ∧
        (nulC ∉ bytes →
          slot2.packet_data.take (bytes.length + 1) = bytes ++ [nulC])) ∧
    (∀ bytes, recv = some bytes → 0 < bytes.length →
      bytes.length ≤ cst.maxSpaPacketLen →
      ∃ slot2, run_udp_server_step cst slot recv a b c d = some slot2) := by
  constructor
  · intro slot2 h
    unfold run_udp_server_step at h
    split at h
    · exact Option.noConfusion h
    · next bytes =>
      try dsimp only at h
      split at h
      · next hcond =>
        injection h with h2
        subst h2
        refine ⟨bytes, rfl, hcond.1, hcond.2, rfl, rfl, ?_, ?_, ?_⟩
        · dsimp only
          rw [List.append_assoc]
          exact List.take_left _ _
        · dsimp only
          rw [List.append_assoc, List.getElem?_append_right (Nat.le_refl _)]
          simp
        · intro hnul
          dsimp only
          have hcop : bytes.takeWhile (fun ch => ch != nulC) = bytes := by
            apply List.takeWhile_eq_self_iff.mpr
            intro a ha
            simp only [bne_iff_ne, ne_eq]
            intro hEq
            exact hnul (hEq ▸ ha)
          rw [hcop, List.take_length]
          have hlen2 : bytes.length + 1 = (bytes ++ [nulC]).length := by
            simp
          rw [hlen2]
          exact List.take_left _ _
      · exact Option.noConfusion h
  · intro bytes hr hpos hle
    subst hr
    unfold run_udp_server_step
    try dsimp only
    rw [if_pos ⟨hpos, hle⟩]
    exact ⟨_, rfl⟩

end Fwknop
